import Mathlib

/-!
# Verification of the sky-view-coverage station rendering subsystem

Shallow embedding of the performance-management subsystem of the coverage-map
viewer: device capability profiling (`src/utils/deviceDetection.js`), spatial
clustering utilities (`src/utils/clustering.js`), the station manager
(`src/utils/stationManager.js`), the performance monitor
(`src/components/PerformanceMonitor.js`) and the shared constants
(`src/constants/performance.js`).

Conventions of the embedding:
* JavaScript numbers are modelled as `ℚ` (coordinates, memory sizes, FPS
  deltas) or `ℕ` (counters, caps).  All arithmetic appearing in the modelled
  code paths is exact on the values involved, so `ℚ` is faithful.
* The Euclidean distance used for prioritisation is represented by the
  squared distance (`Math.sqrt` is strictly monotone on nonnegative reals,
  so the induced orderings, and hence the sorted orders, coincide).
* JavaScript falsiness of optional values (`undefined`, `0`, `""`) is
  modelled explicitly where the code relies on it (`jsOrNat`, `jsOrRat`,
  `jsTruthyStr`).
* JavaScript `Array.prototype.sort` with a numeric comparator is stable
  (ES2019); it is modelled by the stable `List.mergeSort`.
* `Set` and `Map` objects are modelled by insertion-ordered duplicate-free
  lists (`insertKey`).
-/

namespace SkyView

/-! ## Data model: stations (spec.md §3, `Station`) -/

/-- A coverage station record.  `bounds` is the list of `[lat, lng]` corner
pairs from the data feed (nominally `[[lat1,lng1],[lat2,lng2]]`, SW/NE); a
malformed record may carry a different number of corners.  `imageUrl` is
`none` for a missing URL; the empty string is also falsy in JS and is
handled by `jsTruthyStr`. -/
structure Station where
  id : String
  name : String
  bounds : List (ℚ × ℚ)
  imageUrl : Option String
  compressedImageUrl : Option String
  visible : Bool
deriving Repr, DecidableEq

/-- JS truthiness of an optional string (`undefined` and `""` are falsy). -/
def jsTruthyStr (o : Option String) : Bool :=
  match o with
  | none => false
  | some s => s ≠ ""

/-- Centroid of the first two corner pairs of a bounds list, as computed by
`(lat1 + lat2) / 2`, `(lng1 + lng2) / 2` in the source.  On a list with
fewer than two corners the JS destructuring would throw; the embedding
returns `(0, 0)` there and the theorems that touch this case carry a
well-formedness hypothesis (`bounds.length = 2`). -/
def centroidOf (bs : List (ℚ × ℚ)) : ℚ × ℚ :=
  match bs with
  | p :: q :: _ => ((p.1 + q.1) / 2, (p.2 + q.2) / 2)
  | _ => (0, 0)

/-! ## Constants (`src/constants/performance.js`) -/

def MOBILE_MARKER_LIMITS_LOW_END : ℕ := 20
def MOBILE_MARKER_LIMITS_STANDARD : ℕ := 50
def MOBILE_MARKER_LIMITS_TABLET : ℕ := 100
def DESKTOP_MARKER_LIMITS_STANDARD : ℕ := 500
def VIEWPORT_BUFFER_PERCENTAGE : ℚ := 2 / 10
def DISABLE_CLUSTERING_AT_ZOOM : ℚ := 15
def LOW_FPS_THRESHOLD : ℤ := 20

/-! ## Device capability profiler (`src/utils/deviceDetection.js`) -/

/-- The `navigator.connection` object; only `effectiveType` is read. -/
structure Connection where
  effectiveType : String
deriving Repr, DecidableEq

/-- The host `navigator` object, with every signal optional.  A whole-object
absence (`typeof navigator === 'undefined'`) is modelled by `Option
Navigator` at the call sites. -/
structure Navigator where
  userAgent : Option String
  hardwareConcurrency : Option ℕ
  deviceMemory : Option ℚ
  connection : Option Connection
  mozConnection : Option Connection
  webkitConnection : Option Connection
deriving Repr, DecidableEq

/-- JS `x || d` for an optional natural (both `undefined` and `0` fall back). -/
def jsOrNat (x : Option ℕ) (d : ℕ) : ℕ :=
  match x with
  | none => d
  | some v => if v = 0 then d else v

/-- JS `x || d` for an optional rational (both `undefined` and `0` fall back). -/
def jsOrRat (x : Option ℚ) (d : ℚ) : ℚ :=
  match x with
  | none => d
  | some v => if v = 0 then d else v

/-- `navigator.connection || navigator.mozConnection || navigator.webkitConnection`. -/
def effConnection (nav : Navigator) : Option Connection :=
  nav.connection <|> nav.mozConnection <|> nav.webkitConnection

/-- The effective core count used by the tier classifier
(`navigator.hardwareConcurrency || 8`). -/
def effCores (nav : Navigator) : ℕ :=
  jsOrNat nav.hardwareConcurrency 8

/-- The effective memory size used by the tier classifier
(`navigator.deviceMemory || 4`). -/
def effMemory (nav : Navigator) : ℚ :=
  jsOrRat nav.deviceMemory 4

/-- The network effective-type visible to the tier classifier, when any
connection object is exposed. -/
def effType (nav : Navigator) : Option String :=
  (effConnection nav).map Connection.effectiveType

/-- Case-insensitive substring test: the JS alternation regexes used by the
profiler are all plain literal alternatives, so `/a|b|c/i.test(ua)` is
"some lowercased alternative occurs in the lowercased string". -/
def containsSub (hay needle : List Char) : Bool :=
  hay.tails.any (fun t => needle.isPrefixOf t)

/-- `regexTestAny pats ua` models `/p1|p2|.../i.test(ua)` for literal
alternatives `pats` (given lowercased): case-insensitivity is realised by
lowercasing the subject character-wise (all patterns are ASCII). -/
def regexTestAny (pats : List String) (ua : String) : Bool :=
  pats.any (fun p => containsSub (ua.toList.map Char.toLower) p.toList)

/-- The alternatives of the mobile user-agent regex
`/Android|iPhone|iPad|iPod|BlackBerry|IEMobile|Opera Mini/i`. -/
def mobileUAPats : List String :=
  ["android", "iphone", "ipad", "ipod", "blackberry", "iemobile", "opera mini"]

/-- The alternatives of the tablet regex `/iPad|Android.*(?!Mobile)|Tablet/i`.
The negative lookahead after a greedy `.*` is vacuous (the lookahead can
always be placed at the end of the string), so the middle alternative
matches any user agent containing `Android`. -/
def tabletUAPats : List String :=
  ["ipad", "android", "tablet"]

/-- `navigator.userAgent` as read by a regex `test`: an absent property is
coerced to the string `"undefined"`. -/
def uaString (nav : Navigator) : String :=
  nav.userAgent.getD "undefined"

/-- `isMobile()` from `deviceDetection.js`. -/
def isMobile (env : Option Navigator) : Bool :=
  match env with
  | none => false
  | some nav => regexTestAny mobileUAPats (uaString nav)

/-- Device type classification. -/
inductive DeviceType where
  | mobile
  | tablet
  | desktop
deriving Repr, DecidableEq

/-- `getDeviceType()` from `deviceDetection.js`: tablet pattern first, then
mobile, else desktop; desktop when `navigator` is undefined. -/
def getDeviceType (env : Option Navigator) : DeviceType :=
  match env with
  | none => .desktop
  | some nav =>
    if regexTestAny tabletUAPats (uaString nav) then .tablet
    else if regexTestAny mobileUAPats (uaString nav) then .mobile
    else .desktop

/-- Performance tier classification. -/
inductive Tier where
  | low
  | medium
  | high
deriving Repr, DecidableEq

/-- `getPerformanceTier()` from `deviceDetection.js`.  Note the exact order
of checks in the source: the core/memory tests run first, and only past
them is the connection consulted, with `slow-2g`/`2g` mapping to `low` and
`3g` to `medium`. -/
def getPerformanceTier (env : Option Navigator) : Tier :=
  match env with
  | none => .high
  | some nav =>
    let cores := effCores nav
    let memory := effMemory nav
    if cores ≤ 2 ∨ memory ≤ 1 then .low
    else if cores ≤ 4 ∨ memory ≤ 2 then .medium
    else
      match effConnection nav with
      | some conn =>
        if conn.effectiveType = "slow-2g" ∨ conn.effectiveType = "2g" then .low
        else if conn.effectiveType = "3g" then .medium
        else .high
      | none => .high

/-- The settings bundle returned by `getRecommendedSettings()`. -/
structure RecommendedSettings where
  maxVisibleMarkers : ℕ
  enableClustering : Bool
  enableProgressiveLoading : Bool
  enableAnimations : Bool
  compressionQuality : ℚ
  maxZoomLevel : ℕ
  tileLoadTimeout : ℕ
  preferCanvas : Bool
  debounceDelay : ℕ
deriving Repr, DecidableEq

/-- `getRecommendedSettings()` from `deviceDetection.js`. -/
def getRecommendedSettings (env : Option Navigator) : RecommendedSettings :=
  let performanceTier := getPerformanceTier env
  let mobile := isMobile env
  { maxVisibleMarkers :=
      if mobile then (if performanceTier = .low then 20 else 50) else 500
    enableClustering := mobile || performanceTier ≠ .high
    enableProgressiveLoading := mobile || performanceTier = .low
    enableAnimations := performanceTier ≠ .low
    compressionQuality := if performanceTier = .low then 3 / 10 else 5 / 10
    maxZoomLevel := if mobile then 16 else 18
    tileLoadTimeout := if performanceTier = .low then 5000 else 10000
    preferCanvas := true
    debounceDelay := if performanceTier = .low then 300 else 150 }

/-! ## Spatial clusterer (`src/utils/clustering.js`) -/

/-- `calculateStationArea(bounds)`: `|latDiff| * |lngDiff|`, `0` for
malformed bounds (`length ≠ 2`). -/
def calculateStationArea (bs : List (ℚ × ℚ)) : ℚ :=
  match bs with
  | [p, q] => |q.1 - p.1| * |q.2 - p.2|
  | _ => 0

/-- A GeoJSON point feature as produced by `stationsToGeoJSON`: the
properties recorded for each indexed station, plus the point coordinates
(`[centerLng, centerLat]`, stored here as `lng`/`lat`). -/
structure Feature where
  id : String
  name : String
  visible : Bool
  area : ℚ
  imageUrl : Option String
  compressedImageUrl : Option String
  featureBounds : List (ℚ × ℚ)
  lng : ℚ
  lat : ℚ
deriving Repr, DecidableEq

/-- `stationsToGeoJSON(stations)`: keep stations with a 2-element bounds
array, each becoming a point feature at the centroid of its bounds. -/
def stationsToGeoJSON (stations : List Station) : List Feature :=
  (stations.filter (fun s => s.bounds.length = 2)).map (fun s =>
    let c := centroidOf s.bounds
    { id := s.id
      name := s.name
      visible := s.visible
      area := calculateStationArea s.bounds
      imageUrl := s.imageUrl
      compressedImageUrl := s.compressedImageUrl
      featureBounds := s.bounds
      lng := c.2
      lat := c.1 })

/-- The observable state of a `StationClusterer`: the raw station list it
holds and the list of point features loaded into the wrapped index.  (The
index itself is the external `supercluster` dependency; what the repository
controls is exactly which features are handed to `cluster.load`.) -/
structure ClustererState where
  stations : List Station
  loaded : List Feature
deriving Repr, DecidableEq

/-- A fresh clusterer (the constructor loads nothing). -/
def ClustererState.init : ClustererState :=
  { stations := [], loaded := [] }

/-- `loadStations(stations)`: remember the station list and rebuild the
index from the visible stations' GeoJSON points.  `cluster.load` replaces
the previously loaded points wholesale. -/
def loadStations (st : ClustererState) (stations : List Station) : ClustererState :=
  let _ := st
  { stations := stations
    loaded := stationsToGeoJSON (stations.filter (fun s => s.visible)) }

/-- `shouldCluster(zoom)`: cluster while below the disable threshold. -/
def shouldCluster (zoom : ℚ) : Bool :=
  zoom < DISABLE_CLUSTERING_AT_ZOOM

/-- The per-point properties seen by the supercluster `reduce` callback,
as produced by the `map` option: the station name and bounding-box area. -/
structure PointProps where
  pname : String
  area : ℚ
deriving Repr, DecidableEq

/-- The accumulated custom cluster properties. -/
structure ClusterAccum where
  stationCount : ℕ
  totalArea : ℚ
  stationNames : List String
deriving Repr, DecidableEq

/-- The `initial` option of the clusterer. -/
def initialAccum : ClusterAccum :=
  { stationCount := 0, totalArea := 0, stationNames := [] }

/-- The `reduce` option of the clusterer: bump the count, sum the area, and
push the point's name while fewer than 3 names are stored (a falsy —
empty — name is skipped).  There is no distinctness check in the source. -/
def reduceProps (acc : ClusterAccum) (p : PointProps) : ClusterAccum :=
  { stationCount := acc.stationCount + 1
    totalArea := acc.totalArea + p.area
    stationNames :=
      if p.pname ≠ "" ∧ acc.stationNames.length < 3 then
        acc.stationNames ++ [p.pname]
      else
        acc.stationNames }

/-- The cluster properties after merging a sequence of points, in index
traversal order, starting from `initial()`. -/
def mergePoints (pts : List PointProps) : ClusterAccum :=
  pts.foldl reduceProps initialAccum

/-! ## Performance monitor (`src/components/PerformanceMonitor.js`) -/

/-- JS `Math.round` on a rational: round half up. -/
def jsRound (x : ℚ) : ℤ :=
  ⌊x + 1 / 2⌋

/-- Whether a frame-time delta yields an FPS reading below the low-FPS
threshold: `Math.round(1000 / delta) < 20`.  A zero delta gives `Infinity`
in JS, which is never below the threshold. -/
def fpsBelowForDelta (delta : ℚ) : Bool :=
  if delta = 0 then false else jsRound (1000 / delta) < LOW_FPS_THRESHOLD

/-- Monitor state: the warning-type set (insertion-ordered, like a JS
`Set`, duplicate-free by construction) and the last frame timestamp. -/
structure MonState where
  warnings : List String
  lastFrameTime : ℚ
deriving Repr, DecidableEq

/-- `addWarning(type, ...)`: record the type and fire the callback only if
the type is not already present.  The returned flag is whether the warning
callback fired. -/
def addWarning (st : MonState) (ty : String) : MonState × Bool :=
  if ty ∈ st.warnings then (st, false)
  else ({ st with warnings := st.warnings ++ [ty] }, true)

/-- `clearWarning(type)`. -/
def clearWarning (st : MonState) (ty : String) : MonState :=
  { st with warnings := st.warnings.erase ty }

/-- `calculateFPS()` at wall-clock time `now`: update the frame timestamp,
compute the FPS reading from the delta, and raise `low-fps` when below the
threshold.  Returns the new state and whether the warning callback fired. -/
def calculateFPSStep (st : MonState) (now : ℚ) : MonState × Bool :=
  let delta := now - st.lastFrameTime
  let st1 : MonState := { st with lastFrameTime := now }
  if fpsBelowForDelta delta then addWarning st1 "low-fps"
  else (st1, false)

/-- External stimuli relevant to the low-fps warning: an FPS sampling tick
at a given timestamp, or a `clearWarning('low-fps')` call. -/
inductive MonEvent where
  | sample (now : ℚ)
  | clearLowFps
deriving Repr, DecidableEq

/-- Number of `low-fps` warning-callback firings while processing a list of
events. -/
def lowFpsEmissions (st : MonState) : List MonEvent → ℕ
  | [] => 0
  | .sample now :: rest =>
    let r := calculateFPSStep st now
    (if r.2 then 1 else 0) + lowFpsEmissions r.1 rest
  | .clearLowFps :: rest => lowFpsEmissions (clearWarning st "low-fps") rest

/-- Specification-side annotation of an event stream: each sampling tick is
replaced by whether its computed FPS is below the threshold (thread the
frame timestamps through), each clear is kept as a separator. -/
inductive SegTok where
  | tick (below : Bool)
  | clearTok
deriving Repr, DecidableEq

/-- Annotate events with their below-threshold status, given the timestamp
of the previous frame. -/
def annotateEvents (last : ℚ) : List MonEvent → List SegTok
  | [] => []
  | .sample now :: rest => .tick (fpsBelowForDelta (now - last)) :: annotateEvents now rest
  | .clearLowFps :: rest => .clearTok :: annotateEvents last rest

/-- Split an annotated stream into the maximal runs of sampling ticks
delimited by `clearWarning('low-fps')` calls.  Always nonempty. -/
def segsOf : List SegTok → List (List Bool)
  | [] => [[]]
  | .clearTok :: rest => [] :: segsOf rest
  | .tick b :: rest =>
    match segsOf rest with
    | s :: t => (b :: s) :: t
    | [] => [[b]]

/-! ## Station manager (`src/utils/stationManager.js`)

The manager talks to the external map surface only through add/remove
operations on image overlays and cluster markers; the model records those
operations as an explicit trace (`MapOp`) and tracks the manager's own
rendered-state bookkeeping (`renderedStations`, the key sets of
`overlayRefs` and `clusterMarkerRefs`, and the progressive-loading queue).
Progressive loading drains the whole queue within one settle (batching only
inserts delays between batches), so the drain is modelled as a single fold;
overlay loads succeed in this pipeline, load failures being modelled
separately at the operation level (`OverlayOp.add` with `ok = false`). -/

/-- Viewport bounds in degrees, as produced by `getCurrentBounds()`. -/
structure VBounds where
  north : ℚ
  south : ℚ
  east : ℚ
  west : ℚ
deriving Repr, DecidableEq

/-- The map's current view: literal bounds plus zoom. -/
structure MapView where
  north : ℚ
  south : ℚ
  east : ℚ
  west : ℚ
  zoom : ℚ
deriving Repr, DecidableEq

/-- `getCurrentBounds()`: the literal map view expanded by the 20% buffer
fraction per axis. -/
def getCurrentBounds (v : MapView) : VBounds :=
  let latDiff := v.north - v.south
  let lngDiff := v.east - v.west
  { north := v.north + latDiff * VIEWPORT_BUFFER_PERCENTAGE
    south := v.south - latDiff * VIEWPORT_BUFFER_PERCENTAGE
    east := v.east + lngDiff * VIEWPORT_BUFFER_PERCENTAGE
    west := v.west - lngDiff * VIEWPORT_BUFFER_PERCENTAGE }

/-- `isStationInBounds(station, bounds)`: the centroid of the station's
bounds lies inside the given bounds. -/
def isStationInBounds (s : Station) (b : VBounds) : Bool :=
  let c := centroidOf s.bounds
  decide (c.1 ≥ b.south) && decide (c.1 ≤ b.north) &&
    decide (c.2 ≥ b.west) && decide (c.2 ≤ b.east)

/-- The center of a bounds rectangle, `((north+south)/2, (east+west)/2)`. -/
def boundsCenter (b : VBounds) : ℚ × ℚ :=
  ((b.north + b.south) / 2, (b.east + b.west) / 2)

/-- Squared distance of a station's centroid from a center point.  The
source compares `Math.sqrt` of this quantity; square root is strictly
monotone on nonnegative reals, so every comparison (and hence the sorted
order) is identical. -/
def distSq (c : ℚ × ℚ) (s : Station) : ℚ :=
  let p := centroidOf s.bounds
  (p.1 - c.1) * (p.1 - c.1) + (p.2 - c.2) * (p.2 - c.2)

/-- `prioritizeStations(stations, maxCount)`: pass through when within the
cap; otherwise decorate with the distance from the viewport center, sort by
it with the (stable) array sort, and keep the first `maxCount`. -/
def prioritizeStations (stations : List Station) (maxCount : ℕ) (b : VBounds) : List Station :=
  if stations.length ≤ maxCount then stations
  else
    let c := boundsCenter b
    let withDistance := stations.map (fun s => (s, distSq c s))
    ((withDistance.mergeSort (fun x y => decide (x.2 ≤ y.2))).take maxCount).map (fun x => x.1)

/-- The candidate filter of `updateIndividualStations`: stations that are
both visible and inside the buffered viewport. -/
def candidateStations (stations : List Station) (b : VBounds) : List Station :=
  stations.filter (fun s => s.visible && isStationInBounds s b)

/-- `updateIndividualStations` (selection part): filter to visible
in-viewport candidates and apply the device cap via prioritisation.  The
returned list is `stationsToShow`, whose id set becomes the desired
rendered set. -/
def updateIndividualStations (stations : List Station) (b : VBounds) (maxStations : ℕ) :
    List Station :=
  prioritizeStations (candidateStations stations b) maxStations b

/-- Device-dependent configuration of a manager instance. -/
structure ManagerCfg where
  deviceType : DeviceType
  performanceTier : Tier
  clusteringEnabled : Bool
deriving Repr, DecidableEq

/-- `getMaxVisibleStations()`. -/
def getMaxVisibleStations (cfg : ManagerCfg) : ℕ :=
  match cfg.deviceType with
  | .mobile =>
    if cfg.performanceTier = .low then MOBILE_MARKER_LIMITS_LOW_END
    else MOBILE_MARKER_LIMITS_STANDARD
  | .tablet => MOBILE_MARKER_LIMITS_TABLET
  | .desktop => DESKTOP_MARKER_LIMITS_STANDARD

/-- An operation issued against the external map surface. -/
inductive MapOp where
  | addOverlay (id : String)
  | removeOverlay (id : String)
  | addClusterMarker (clusterId : ℕ)
  | removeClusterMarker (clusterId : ℕ)
deriving Repr, DecidableEq

/-- Overlay ids added by a trace. -/
def addedOverlayIds (ops : List MapOp) : List String :=
  ops.filterMap (fun op => match op with | .addOverlay i => some i | _ => none)

/-- Overlay ids removed by a trace. -/
def removedOverlayIds (ops : List MapOp) : List String :=
  ops.filterMap (fun op => match op with | .removeOverlay i => some i | _ => none)

/-- Cluster-marker ids added by a trace. -/
def addedClusterIds (ops : List MapOp) : List ℕ :=
  ops.filterMap (fun op => match op with | .addClusterMarker i => some i | _ => none)

/-- Cluster-marker ids removed by a trace. -/
def removedClusterIds (ops : List MapOp) : List ℕ :=
  ops.filterMap (fun op => match op with | .removeClusterMarker i => some i | _ => none)

/-- Key insertion with JS `Set.add` / `Map.set` semantics: inserting a
present key leaves the (insertion-ordered) key list unchanged. -/
def insertKey {α : Type} [DecidableEq α] (l : List α) (a : α) : List α :=
  if a ∈ l then l else l ++ [a]

/-- Insertion-order deduplication, as performed by `new Set(array)`. -/
def dedupFirst {α : Type} [DecidableEq α] (l : List α) : List α :=
  l.foldl insertKey []

/-- Mutable state of a `StationManager`. -/
structure ManagerState where
  stations : List Station
  renderedStations : List String
  overlayKeys : List String
  clusterKeys : List ℕ
  loadingQueue : List Station
deriving Repr, DecidableEq

/-- A fresh manager for a station list. -/
def ManagerState.mk0 (stations : List Station) : ManagerState :=
  { stations := stations
    renderedStations := []
    overlayKeys := []
    clusterKeys := []
    loadingQueue := [] }

/-- `addStationOverlay(station)`: skip when the station has no (truthy)
image URL or is already rendered; otherwise create the overlay and add it
to the map, recording it in `overlayRefs` and `renderedStations`.  `ok`
models whether overlay creation succeeded (`catch` leaves no trace). -/
def addStationOverlayStep (m : ManagerState) (s : Station) (ok : Bool) :
    ManagerState × List MapOp :=
  if ¬ jsTruthyStr s.imageUrl ∨ s.id ∈ m.renderedStations then (m, [])
  else if ok then
    ({ m with
        overlayKeys := insertKey m.overlayKeys s.id
        renderedStations := insertKey m.renderedStations s.id },
      [.addOverlay s.id])
  else (m, [])

/-- `removeStationOverlay(stationId)`: remove the overlay from the map when
one is recorded, and always drop the id from `renderedStations`. -/
def removeStationOverlayStep (m : ManagerState) (id : String) :
    ManagerState × List MapOp :=
  if id ∈ m.overlayKeys then
    ({ m with
        overlayKeys := m.overlayKeys.erase id
        renderedStations := m.renderedStations.erase id },
      [.removeOverlay id])
  else
    ({ m with renderedStations := m.renderedStations.erase id }, [])

/-- `clearAllOverlays()`: remove every recorded overlay from the map and
reset the overlay bookkeeping and the loading queue. -/
def clearAllOverlays (m : ManagerState) : ManagerState × List MapOp :=
  ({ m with renderedStations := [], overlayKeys := [], loadingQueue := [] },
    m.overlayKeys.map (fun id => .removeOverlay id))

/-- `clearAllMarkers()`: clear overlays, then remove every cluster marker. -/
def clearAllMarkers (m : ManagerState) : ManagerState × List MapOp :=
  let r := clearAllOverlays m
  ({ r.1 with clusterKeys := [] },
    r.2 ++ m.clusterKeys.map (fun cid => .removeClusterMarker cid))

/-- Drain of `processLoadingQueue()`: overlay creation for every queued
station (batching only interleaves delays; per-station behaviour is
`addStationOverlay`, with loads succeeding in this pipeline). -/
def drainQueue (m : ManagerState) (queue : List Station) : ManagerState × List MapOp :=
  match queue with
  | [] => (m, [])
  | s :: rest =>
    let r := addStationOverlayStep m s true
    let r2 := drainQueue r.1 rest
    (r2.1, r.2 ++ r2.2)

/-- Removal phase of `handleStationUpdates`: every rendered id not in the
desired set is removed immediately (iteration over the snapshot of the
rendered set). -/
def removeStale (m : ManagerState) (rendered : List String) (newIds : List String) :
    ManagerState × List MapOp :=
  match rendered with
  | [] => (m, [])
  | id :: rest =>
    if id ∈ newIds then removeStale m rest newIds
    else
      let r := removeStationOverlayStep m id
      let r2 := removeStale r.1 rest newIds
      (r2.1, r.2 ++ r2.2)

/-- `handleStationUpdates(newVisibleStations)`: remove stale overlays, queue
the newly desired stations (looked up by id in the authoritative list),
then drain the loading queue. -/
def handleStationUpdates (m : ManagerState) (newIds : List String) :
    ManagerState × List MapOp :=
  let rem := removeStale m m.renderedStations newIds
  let m1 := rem.1
  let queued :=
    newIds.foldl
      (fun acc id =>
        if id ∈ m1.renderedStations then acc
        else
          match m1.stations.find? (fun s => s.id = id) with
          | some s => acc ++ [s]
          | none => acc)
      m1.loadingQueue
  let dr := drainQueue { m1 with loadingQueue := [] } queued
  (dr.1, rem.2 ++ dr.2)

/-- A synthetic cluster feature returned by the external index: only the
cluster id is relevant to the manager's bookkeeping. -/
structure ClusterFeature where
  clusterId : ℕ
deriving Repr, DecidableEq

/-- A standalone point feature returned by the external index. -/
structure PointFeature where
  pid : String
deriving Repr, DecidableEq

/-- The partitioned result of `clusterer.getClusters`. -/
structure ClusterData where
  clusters : List ClusterFeature
  points : List PointFeature
deriving Repr, DecidableEq

/-- The external clustering index, as a deterministic query: buffered
bounds and floored zoom to clusters plus standalone points. -/
def ClusterQuery : Type := VBounds → ℤ → ClusterData

/-- `renderClusters(clusters)`: add one marker per cluster feature. -/
def renderClusters (m : ManagerState) (cs : List ClusterFeature) :
    ManagerState × List MapOp :=
  match cs with
  | [] => (m, [])
  | c :: rest =>
    let m1 := { m with clusterKeys := insertKey m.clusterKeys c.clusterId }
    let r := renderClusters m1 rest
    (r.1, .addClusterMarker c.clusterId :: r.2)

/-- `renderIndividualPoints(points)`: look each point's station up by id and
add its overlay. -/
def renderIndividualPoints (m : ManagerState) (ps : List PointFeature) :
    ManagerState × List MapOp :=
  match ps with
  | [] => (m, [])
  | p :: rest =>
    match m.stations.find? (fun s => s.id = p.pid) with
    | some s =>
      let r := addStationOverlayStep m s true
      let r2 := renderIndividualPoints r.1 rest
      (r2.1, r.2 ++ r2.2)
    | none => renderIndividualPoints m rest

/-- `updateClusters(bounds)`: query the index for the buffered bounds and
floored zoom, then render cluster markers and the standalone points. -/
def updateClusters (m : ManagerState) (q : ClusterQuery) (b : VBounds) (zoom : ℚ) :
    ManagerState × List MapOp :=
  let dat := q b ⌊zoom⌋
  let rc := renderClusters m dat.clusters
  let rp := renderIndividualPoints rc.1 dat.points
  (rp.1, rc.2 ++ rp.2)

/-- `updateVisibleStations()`: recompute the buffered bounds, clear every
rendered marker and overlay, then either render clusters (clustering
enabled and zoom below the disable threshold) or render capped individual
stations. -/
def updateVisibleStations (cfg : ManagerCfg) (q : ClusterQuery) (v : MapView)
    (m : ManagerState) : ManagerState × List MapOp :=
  let b := getCurrentBounds v
  let cl := clearAllMarkers m
  if cfg.clusteringEnabled && shouldCluster v.zoom then
    let r := updateClusters cl.1 q b v.zoom
    (r.1, cl.2 ++ r.2)
  else
    let toShow := updateIndividualStations cl.1.stations b (getMaxVisibleStations cfg)
    let newIds := dedupFirst (toShow.map (fun s => s.id))
    let r := handleStationUpdates cl.1 newIds
    (r.1, cl.2 ++ r.2)

/-! ## Specification-side definitions

These follow the wording of the specification, to be compared with the
source-derived definitions above. -/

/-- Spec side of C1's candidate set: "the stations with `visible === true`
whose bounds-centroid lies within the buffered bounds". -/
def specCandidates (stations : List Station) (b : VBounds) : List Station :=
  stations.filter (fun s =>
    s.visible &&
      (decide (b.south ≤ (centroidOf s.bounds).1) && decide ((centroidOf s.bounds).1 ≤ b.north) &&
        decide (b.west ≤ (centroidOf s.bounds).2) && decide ((centroidOf s.bounds).2 ≤ b.east)))

/-- Spec side of C1's priority order on position-annotated candidates:
strictly smaller distance from the viewport center first, ties broken by
the original list position. -/
def specPriorityLe (c : ℚ × ℚ) (p q : ℕ × Station) : Bool :=
  decide (distSq c p.2 < distSq c q.2) ||
    (decide (distSq c p.2 = distSq c q.2) && decide (p.1 ≤ q.1))

/-- Spec side of C1's capped selection: annotate the candidates with their
original positions, order by (distance from the viewport center, original
position) ascending, and keep the first `cap`. -/
def specClosestSelection (stations : List Station) (b : VBounds) (cap : ℕ) :
    List Station :=
  let cand := specCandidates stations b
  (((cand.enum).mergeSort (specPriorityLe (boundsCenter b))).map (fun p => p.2)).take cap

/-! ## Overlay bookkeeping operations for the rendered-state invariant -/

/-- The `StationManager` operations that touch the overlay bookkeeping
(`renderedStations` / `overlayRefs`): an overlay add (with its success
flag), a removal, an asynchronous overlay load error (whose handler calls
`removeStationOverlay`), and the two clear operations. -/
inductive OverlayOp where
  | add (s : Station) (ok : Bool)
  | remove (id : String)
  | loadError (id : String)
  | clearOverlays
  | clearMarkers
deriving Repr

/-- Apply an overlay-bookkeeping operation to the manager state. -/
def applyOverlayOp (m : ManagerState) (op : OverlayOp) : ManagerState :=
  match op with
  | .add s ok => (addStationOverlayStep m s ok).1
  | .remove id => (removeStationOverlayStep m id).1
  | .loadError id => (removeStationOverlayStep m id).1
  | .clearOverlays => (clearAllOverlays m).1
  | .clearMarkers => (clearAllMarkers m).1

/-- The rendered-state invariant of C10: `renderedStations` is exactly the
key set of `overlayRefs`, both duplicate-free. -/
def RenderedInv (m : ManagerState) : Prop :=
  m.renderedStations.Nodup ∧ m.overlayKeys.Nodup ∧
    ∀ id, id ∈ m.renderedStations ↔ id ∈ m.overlayKeys

/-- Specification-side count of `low-fps` emissions: one per
clear-delimited segment containing a below-threshold sample, except that
the leading segment emits nothing when the warning is already pending
(`warned`). -/
def specCountFrom (warned : Bool) (toks : List SegTok) : ℕ :=
  match segsOf toks with
  | s :: t => (if warned = false ∧ s.any id then 1 else 0) +
      t.countP (fun seg => seg.any id)
  | [] => 0

/-! ## Concrete instances used by witnesses and counterexamples -/

/-- Monitor stimuli for the C7 witness: two consecutive below-threshold
samples, a clear, then another below-threshold sample. -/
def c7Events : List MonEvent :=
  [.sample 1000, .sample 2000, .clearLowFps, .sample 3000]

/-- A fast device (8 cores, 4 GB by defaulting) on a `slow-2g` connection. -/
def c3Nav : Navigator :=
  { userAgent := some "Mozilla/5.0 (X11; Linux x86_64)"
    hardwareConcurrency := none
    deviceMemory := none
    connection := some { effectiveType := "slow-2g" }
    mozConnection := none
    webkitConnection := none }

/-- A desktop user agent reporting 2 cores and 1 GB of memory. -/
def c4Nav : Navigator :=
  { userAgent := some "Mozilla/5.0 (Windows NT 10.0; Win64; x64)"
    hardwareConcurrency := some 2
    deviceMemory := some 1
    connection := none
    mozConnection := none
    webkitConnection := none }

/-- A mobile user agent reporting 2 cores and 1 GB of memory. -/
def c4MobileNav : Navigator :=
  { userAgent := some "Mozilla/5.0 (iPhone; CPU iPhone OS 15_0)"
    hardwareConcurrency := some 2
    deviceMemory := some 1
    connection := none
    mozConnection := none
    webkitConnection := none }

/-- A mobile user agent exposing no hardware-introspection signals. -/
def c8Nav : Navigator :=
  { userAgent := some "Mozilla/5.0 (iPhone; CPU iPhone OS 15_0)"
    hardwareConcurrency := none
    deviceMemory := none
    connection := none
    mozConnection := none
    webkitConnection := none }

/-- A non-mobile environment exposing no hardware-introspection signals. -/
def c8PlainNav : Navigator :=
  { userAgent := some "node"
    hardwareConcurrency := none
    deviceMemory := none
    connection := none
    mozConnection := none
    webkitConnection := none }

/-- Three points with a repeated name, merged into one cluster. -/
def c9Pts : List PointProps :=
  [{ pname := "A", area := 1 }, { pname := "A", area := 2 }, { pname := "B", area := 3 }]

/-- A tiny station at a given (degenerate) position, used by witnesses. -/
def wStation (i : ℕ) (lat lng : ℚ) : Station :=
  { id := Nat.repr i
    name := "w"
    bounds := [(lat, lng), (lat, lng)]
    imageUrl := some "img"
    compressedImageUrl := none
    visible := true }

/-- Three well-formed stations for the C1 witness. -/
def c1Stations : List Station :=
  [wStation 0 (1 / 4) (1 / 4), wStation 1 (1 / 2) (1 / 2), wStation 2 (3 / 4) (3 / 4)]

/-- A concrete buffered viewport for the C1 witness. -/
def c1B : VBounds :=
  { north := 1, south := 0, east := 1, west := 0 }

/-- The scenario of C2: station `i` of 150, inside the viewport. -/
def panStation (i : ℕ) : Station :=
  wStation i ((i : ℚ) / 150) ((i : ℚ) / 150)

/-- The 150 visible stations of the C2 scenario. -/
def panStations : List Station :=
  (List.range 150).map panStation

/-- The C2 scenario viewport before the pan, at zoom 16. -/
def panView1 : MapView :=
  { north := 1, south := 0, east := 1, west := 0, zoom := 16 }

/-- The C2 scenario viewport after a 1-pixel pan (well within the 20%
buffer). -/
def panView2 : MapView :=
  { north := 1 + 1 / 10000, south := 1 / 10000, east := 1 + 1 / 10000,
    west := 1 / 10000, zoom := 16 }

/-- The C2 scenario device: mobile, standard tier (cap 50). -/
def panCfg : ManagerCfg :=
  { deviceType := .mobile, performanceTier := .medium, clusteringEnabled := true }

/-- A trivial external index (irrelevant at zoom 16, above the clustering
threshold). -/
def emptyQuery : ClusterQuery := fun _ _ => { clusters := [], points := [] }

/-! ## Theorems -/

/-- C3, counterexample.  The claim "the classifier returns low iff cores ≤ 2
or memory ≤ 1 GB" fails: on a device with 8 effective cores and 4 GB of
effective memory but a `slow-2g` connection, `getPerformanceTier` returns
`low` although neither hardware condition holds. -/
theorem c3_counterexample :
    getPerformanceTier (some c3Nav) = Tier.low ∧
      ¬(effCores c3Nav ≤ 2 ∨ effMemory c3Nav ≤ 1) := by
  decide

/-- C3, amended.  The tier classifier returns `low` iff the effective core
count (`hardwareConcurrency || 8`) is ≤ 2 or the effective memory
(`deviceMemory || 4`) is ≤ 1 GB, **or** the hardware clears both the low
and the medium bars and the network effective-type is `slow-2g` or `2g`;
it returns `medium` iff it does not return `low` and (cores ≤ 4 or memory
≤ 2 GB or the effective-type is `3g`); it returns `high` otherwise. -/
theorem c3_amended_tier_classification (nav : Navigator) :
    (getPerformanceTier (some nav) = Tier.low ↔
      ((effCores nav ≤ 2 ∨ effMemory nav ≤ 1) ∨
        (¬(effCores nav ≤ 4 ∨ effMemory nav ≤ 2) ∧
          (effType nav = some "slow-2g" ∨ effType nav = some "2g")))) ∧
    (getPerformanceTier (some nav) = Tier.medium ↔
      (¬(effCores nav ≤ 2 ∨ effMemory nav ≤ 1) ∧
        ((effCores nav ≤ 4 ∨ effMemory nav ≤ 2) ∨ effType nav = some "3g"))) ∧
    (getPerformanceTier (some nav) = Tier.high ↔
      (¬(effCores nav ≤ 2 ∨ effMemory nav ≤ 1) ∧
        ¬(effCores nav ≤ 4 ∨ effMemory nav ≤ 2) ∧
        effType nav ≠ some "slow-2g" ∧ effType nav ≠ some "2g" ∧
        effType nav ≠ some "3g")) := by
  rcases h : effConnection nav with _ | conn
  · simp only [getPerformanceTier, effType, h, Option.map_none']
    split_ifs <;> simp_all
  · simp only [getPerformanceTier, effType, h, Option.map_some']
    by_cases h1 : effCores nav ≤ 2 ∨ effMemory nav ≤ 1
    · simp [h1]
    · by_cases h2 : effCores nav ≤ 4 ∨ effMemory nav ≤ 2
      · simp [h1, h2]
      · by_cases h3 : conn.effectiveType = "slow-2g" ∨ conn.effectiveType = "2g"
        · rcases h3 with h3 | h3 <;> simp [h1, h2, h3]
        · by_cases h4 : conn.effectiveType = "3g" <;>
            simp [h1, h2, h4, not_or.mp h3]

/-- C4, counterexample.  The claim promises `maxVisibleMarkers ≤ 20` for
every cores=2 / memory=1 device "regardless of user-agent / device type",
but on a desktop user agent the tier is `low` while `maxVisibleMarkers` is
500. -/
theorem c4_counterexample :
    c4Nav.hardwareConcurrency = some 2 ∧ c4Nav.deviceMemory = some 1 ∧
      getPerformanceTier (some c4Nav) = Tier.low ∧
      ¬((getRecommendedSettings (some c4Nav)).maxVisibleMarkers ≤ 20) := by
  decide

/-- C4, amended.  A device reporting cores=2 and memory=1 is always
classified `low`; `recommendedSettings().maxVisibleMarkers` is 20 (≤ 20)
exactly when the user agent matches the mobile pattern, and 500 on
non-mobile user agents. -/
theorem c4_amended_low_device_cap (nav : Navigator)
    (hc : nav.hardwareConcurrency = some 2) (hm : nav.deviceMemory = some 1) :
    getPerformanceTier (some nav) = Tier.low ∧
      (isMobile (some nav) = true →
        (getRecommendedSettings (some nav)).maxVisibleMarkers = 20) ∧
      (isMobile (some nav) = false →
        (getRecommendedSettings (some nav)).maxVisibleMarkers = 500) := by
  have ht : getPerformanceTier (some nav) = Tier.low := by
    simp [getPerformanceTier, effCores, effMemory, hc, hm, jsOrNat, jsOrRat]
  refine ⟨ht, ?_, ?_⟩ <;> intro h <;>
    simp [getRecommendedSettings, ht, h]

/-- Witness for C4's amended theorem at the concrete mobile device. -/
theorem c4_amended_low_device_cap_witness :
    getPerformanceTier (some c4MobileNav) = Tier.low ∧
      (isMobile (some c4MobileNav) = true →
        (getRecommendedSettings (some c4MobileNav)).maxVisibleMarkers = 20) ∧
      (isMobile (some c4MobileNav) = false →
        (getRecommendedSettings (some c4MobileNav)).maxVisibleMarkers = 500) :=
  c4_amended_low_device_cap c4MobileNav rfl rfl

/-- C8, counterexample.  The claim's hypothesis allows a navigator whose
hardware-introspection signals are all undefined but whose user agent is a
phone's; there `getDeviceType` returns `mobile`, not the desktop default. -/
theorem c8_counterexample :
    c8Nav.hardwareConcurrency = none ∧ c8Nav.deviceMemory = none ∧
      effConnection c8Nav = none ∧
      getDeviceType (some c8Nav) = DeviceType.mobile ∧
      DeviceType.mobile ≠ DeviceType.desktop := by
  decide

/-- C8, amended.  The profiler functions are total (they never throw).  When
`navigator` is absent they return the desktop/high defaults outright.  When
`navigator` is present but `hardwareConcurrency`, `deviceMemory` and the
connection objects are all undefined, `getPerformanceTier` still returns
`high`, and the remaining functions return the desktop defaults provided
the user agent matches neither the tablet nor the mobile pattern (they
classify by user agent alone). -/
theorem c8_amended_graceful_defaults :
    (getDeviceType none = DeviceType.desktop ∧ getPerformanceTier none = Tier.high ∧
      isMobile none = false ∧
      (getRecommendedSettings none).maxVisibleMarkers = 500 ∧
      (getRecommendedSettings none).enableClustering = false ∧
      (getRecommendedSettings none).enableProgressiveLoading = false) ∧
    (∀ nav : Navigator, nav.hardwareConcurrency = none → nav.deviceMemory = none →
      effConnection nav = none →
      (getPerformanceTier (some nav) = Tier.high ∧
        (regexTestAny tabletUAPats (uaString nav) = false →
          regexTestAny mobileUAPats (uaString nav) = false →
          getDeviceType (some nav) = DeviceType.desktop ∧
            isMobile (some nav) = false ∧
            (getRecommendedSettings (some nav)).maxVisibleMarkers = 500 ∧
            (getRecommendedSettings (some nav)).enableClustering = false))) := by
  refine ⟨by decide, ?_⟩
  intro nav hc hm hconn
  have ht : getPerformanceTier (some nav) = Tier.high := by
    norm_num [getPerformanceTier, effCores, effMemory, hc, hm, hconn, jsOrNat, jsOrRat]
  refine ⟨ht, ?_⟩
  intro htab hmob
  have hdt : getDeviceType (some nav) = DeviceType.desktop := by
    simp [getDeviceType, htab, hmob]
  have him : isMobile (some nav) = false := by
    simp [isMobile, hmob]
  exact ⟨hdt, him, by simp [getRecommendedSettings, ht, him], by simp [getRecommendedSettings, ht, him]⟩

/-- Witness for C8's amended theorem at a signal-free, non-mobile navigator. -/
theorem c8_amended_graceful_defaults_witness :
    getPerformanceTier (some c8PlainNav) = Tier.high ∧
      getDeviceType (some c8PlainNav) = DeviceType.desktop ∧
      isMobile (some c8PlainNav) = false ∧
      (getRecommendedSettings (some c8PlainNav)).maxVisibleMarkers = 500 :=
  have h := (c8_amended_graceful_defaults.2 c8PlainNav rfl rfl rfl)
  have h2 := h.2 (by decide) (by decide)
  ⟨h.1, h2.1, h2.2.1, h2.2.2.1⟩

/-- C9, counterexample.  The reduce callback keeps the first 3 *names
encountered*, with no distinctness check: merging two points named "A" and
one named "B" stores `["A", "A", "B"]`, which repeats a name, contradicting
"the first 3 distinct station names … no repeated name". -/
theorem c9_counterexample :
    (mergePoints c9Pts).stationNames = ["A", "A", "B"] ∧
      ¬ (mergePoints c9Pts).stationNames.Nodup := by
  decide

/-- Fold invariant for the cluster `reduce` callback, from an arbitrary
accumulator. -/
theorem foldl_reduceProps (pts : List PointProps) (acc : ClusterAccum) :
    (pts.foldl reduceProps acc).stationCount = acc.stationCount + pts.length ∧
    (pts.foldl reduceProps acc).totalArea = acc.totalArea + (pts.map PointProps.area).sum ∧
    (pts.foldl reduceProps acc).stationNames =
      acc.stationNames ++
        (pts.filterMap (fun p => if p.pname = "" then none else some p.pname)).take
          (3 - acc.stationNames.length) := by
  induction pts generalizing acc with
  | nil => simp
  | cons p rest ih =>
    obtain ⟨ihc, iha, ihn⟩ := ih (reduceProps acc p)
    simp only [List.foldl_cons]
    refine ⟨?_, ?_, ?_⟩
    · rw [ihc]; simp [reduceProps]; omega
    · rw [iha]; simp [reduceProps]; ring
    · rw [ihn]
      by_cases hp : p.pname = ""
      · simp [reduceProps, hp]
      · by_cases hl : acc.stationNames.length < 3
        · have hk : 3 - acc.stationNames.length = (3 - (acc.stationNames.length + 1)) + 1 := by
            omega
          simp [reduceProps, hp, hl, hk, List.take_succ_cons]
        · have hk3 : 3 - acc.stationNames.length = 0 := by omega
          simp [reduceProps, hp, hl, hk3]

/-- C9, amended.  Merging a sequence of points into a cluster accumulates:
`stationCount` = number of merged points, `totalArea` = sum of their areas,
and `stationNames` = the first 3 nonempty names in index traversal order —
possibly with repeats, since the source performs no distinctness check. -/
theorem c9_amended_cluster_reduction (pts : List PointProps) :
    (mergePoints pts).stationCount = pts.length ∧
    (mergePoints pts).totalArea = (pts.map PointProps.area).sum ∧
    (mergePoints pts).stationNames =
      (pts.filterMap (fun p => if p.pname = "" then none else some p.pname)).take 3 := by
  have h := foldl_reduceProps pts initialAccum
  simpa [mergePoints, initialAccum] using h

/-- C6.  `load(stations)` rebuilds the index to hold exactly the visible
stations with a 2-element bounds array, each indexed as a point at the
centroid of its bounds with area `|latDiff| * |lngDiff|` and the id, name,
visibility and image-URL annotations; a station with malformed bounds is
skipped silently (it simply has no feature — the embedding is total, no
failure), and a subsequent `load` replaces the prior index regardless of
the previous clusterer state. -/
theorem c6_load_rebuilds_index (st : ClustererState) (stations : List Station) :
    (∀ f : Feature, f ∈ (loadStations st stations).loaded ↔
      ∃ s ∈ stations, s.visible = true ∧ ∃ p q, s.bounds = [p, q] ∧
        f = { id := s.id, name := s.name, visible := s.visible,
              area := |q.1 - p.1| * |q.2 - p.2|,
              imageUrl := s.imageUrl, compressedImageUrl := s.compressedImageUrl,
              featureBounds := s.bounds,
              lng := (p.2 + q.2) / 2, lat := (p.1 + q.1) / 2 }) ∧
    (∀ st' : ClustererState, loadStations st' stations = loadStations st stations) := by
  constructor
  · intro f
    simp only [loadStations, stationsToGeoJSON, List.mem_map, List.mem_filter,
      decide_eq_true_eq]
    constructor
    · rintro ⟨s, ⟨⟨hs, hvis⟩, hlen⟩, rfl⟩
      obtain ⟨p, q, hpq⟩ := List.length_eq_two.mp hlen
      exact ⟨s, hs, hvis, p, q, hpq, by simp [centroidOf, calculateStationArea, hpq]⟩
    · rintro ⟨s, hs, hvis, p, q, hpq, rfl⟩
      exact ⟨s, ⟨⟨hs, hvis⟩, by simp [hpq]⟩,
        by simp [centroidOf, calculateStationArea, hpq]⟩
  · intro st'
    rfl

/-- `segsOf` never returns the empty list of segments. -/
theorem segsOf_ne_nil (toks : List SegTok) : segsOf toks ≠ [] := by
  match toks with
  | [] => simp [segsOf]
  | .clearTok :: rest => simp [segsOf]
  | .tick b :: rest =>
    simp only [segsOf]
    cases h : segsOf rest <;> simp

/-- A clear resets the pending-warning discount. -/
theorem specCountFrom_clear (warned : Bool) (toks : List SegTok) :
    specCountFrom warned (.clearTok :: toks) = specCountFrom false toks := by
  cases h : segsOf toks with
  | nil => exact absurd h (segsOf_ne_nil toks)
  | cons s t =>
    cases hs : s.any id <;>
      simp [specCountFrom, segsOf, h, List.countP_cons, hs] <;> omega

/-- A non-below sample changes no segment's emission status. -/
theorem specCountFrom_tick_false (warned : Bool) (toks : List SegTok) :
    specCountFrom warned (.tick false :: toks) = specCountFrom warned toks := by
  cases h : segsOf toks with
  | nil => exact absurd h (segsOf_ne_nil toks)
  | cons s t => simp [specCountFrom, segsOf, h]

/-- A below-threshold sample while the warning is pending emits nothing. -/
theorem specCountFrom_tick_true_warned (toks : List SegTok) :
    specCountFrom true (.tick true :: toks) = specCountFrom true toks := by
  cases h : segsOf toks with
  | nil => exact absurd h (segsOf_ne_nil toks)
  | cons s t => simp [specCountFrom, segsOf, h]

/-- A below-threshold sample with no pending warning emits exactly once and
sets the pending flag. -/
theorem specCountFrom_tick_true_fresh (toks : List SegTok) :
    specCountFrom false (.tick true :: toks) = 1 + specCountFrom true toks := by
  cases h : segsOf toks with
  | nil => exact absurd h (segsOf_ne_nil toks)
  | cons s t => simp [specCountFrom, segsOf, h]

/-- The monitor's `low-fps` emission count over any event stream equals the
specification-side segment count, relative to whether the warning is
already pending. -/
theorem lowFpsEmissions_eq_specCount (events : List MonEvent) :
    ∀ (st : MonState) (warned : Bool), st.warnings.Nodup →
      ("low-fps" ∈ st.warnings ↔ warned = true) →
      lowFpsEmissions st events =
        specCountFrom warned (annotateEvents st.lastFrameTime events) := by
  induction events with
  | nil =>
    intro st warned hnd hw
    simp [lowFpsEmissions, annotateEvents, specCountFrom, segsOf]
  | cons e rest ih =>
    intro st warned hnd hw
    cases e with
    | clearLowFps =>
      have hnd2 : (clearWarning st "low-fps").warnings.Nodup := hnd.erase _
      have hw2 : "low-fps" ∈ (clearWarning st "low-fps").warnings ↔ false = true := by
        simp [clearWarning, List.Nodup.mem_erase_iff hnd]
      have hlt : (clearWarning st "low-fps").lastFrameTime = st.lastFrameTime := rfl
      calc lowFpsEmissions st (.clearLowFps :: rest)
          = lowFpsEmissions (clearWarning st "low-fps") rest := rfl
        _ = specCountFrom false (annotateEvents st.lastFrameTime rest) := by
            rw [ih _ false hnd2 hw2, hlt]
        _ = specCountFrom warned (annotateEvents st.lastFrameTime (.clearLowFps :: rest)) := by
            rw [annotateEvents, specCountFrom_clear]
    | sample now =>
      have hstep : calculateFPSStep st now =
          (if fpsBelowForDelta (now - st.lastFrameTime) then
            addWarning { st with lastFrameTime := now } "low-fps"
          else ({ st with lastFrameTime := now }, false)) := rfl
      cases hb : fpsBelowForDelta (now - st.lastFrameTime) with
      | false =>
        have h1 : calculateFPSStep st now = ({ st with lastFrameTime := now }, false) := by
          rw [hstep, hb]; simp
        have hrec := ih { st with lastFrameTime := now } warned hnd hw
        simp only [lowFpsEmissions, h1, annotateEvents, hb]
        rw [hrec, specCountFrom_tick_false]
        simp
      | true =>
        cases hwd : warned with
        | true =>
          subst hwd
          have hmem : "low-fps" ∈ st.warnings := hw.mpr rfl
          have h1 : calculateFPSStep st now = ({ st with lastFrameTime := now }, false) := by
            rw [hstep, hb]
            simp [addWarning, hmem]
          have hw2 : "low-fps" ∈ st.warnings ↔ true = true := by simp [hmem]
          have hrec := ih { st with lastFrameTime := now } true hnd hw2
          simp only [lowFpsEmissions, h1, annotateEvents, hb]
          rw [hrec, specCountFrom_tick_true_warned]
          simp
        | false =>
          subst hwd
          have hmem : "low-fps" ∉ st.warnings := fun h => by simpa using hw.mp h
          have h1 : calculateFPSStep st now =
              ({ st with lastFrameTime := now, warnings := st.warnings ++ ["low-fps"] },
                true) := by
            rw [hstep, hb]
            simp [addWarning, hmem]
          have hnd2 : (st.warnings ++ ["low-fps"]).Nodup := by
            simp [List.nodup_append, hnd, hmem]
          have hw2 : "low-fps" ∈ st.warnings ++ ["low-fps"] ↔ true = true := by simp
          have hrec := ih { st with lastFrameTime := now, warnings := st.warnings ++ ["low-fps"] }
            true hnd2 hw2
          simp only [lowFpsEmissions, h1, annotateEvents, hb]
          rw [hrec, specCountFrom_tick_true_fresh]
          simp

/-- C7.  Over any sequence of FPS samples and `clearWarning('low-fps')`
calls, starting from a monitor with no pending `low-fps` warning, the
number of `low-fps` warning-callback firings equals the number of
clear-delimited segments containing at least one below-threshold (< 20)
sample: the first below-threshold sample of a segment fires exactly once,
further below-threshold samples before the clear fire nothing, and after a
clear the next below-threshold sample fires again. -/
theorem c7_low_fps_dedup_until_cleared (st : MonState) (events : List MonEvent)
    (hnd : st.warnings.Nodup) (hw : "low-fps" ∉ st.warnings) :
    lowFpsEmissions st events =
      (segsOf (annotateEvents st.lastFrameTime events)).countP (fun seg => seg.any id) := by
  have h := lowFpsEmissions_eq_specCount events st false hnd (by simp [hw])
  rw [h]
  cases hs : segsOf (annotateEvents st.lastFrameTime events) with
  | nil => exact absurd hs (segsOf_ne_nil _)
  | cons s t =>
    cases hany : s.any id <;>
      simp [specCountFrom, hs, List.countP_cons, hany] <;> omega

/-- Witness for C7 at a concrete monitor and event stream: samples at 1 FPS
fire on first sight, are deduplicated until cleared, and fire again after
the clear (two firings for `c7Events`). -/
theorem c7_low_fps_dedup_until_cleared_witness :
    lowFpsEmissions { warnings := [], lastFrameTime := 0 } c7Events =
        (segsOf (annotateEvents 0 c7Events)).countP (fun seg => seg.any id) ∧
      lowFpsEmissions { warnings := [], lastFrameTime := 0 } c7Events = 2 :=
  ⟨c7_low_fps_dedup_until_cleared { warnings := [], lastFrameTime := 0 } c7Events
      List.nodup_nil (by simp),
    by with_unfolding_all decide⟩

/-- Membership in a JS-`Set`-style insertion. -/
theorem mem_insertKey {α : Type} [DecidableEq α] (l : List α) (a b : α) :
    b ∈ insertKey l a ↔ b ∈ l ∨ b = a := by
  by_cases h : a ∈ l
  · simp only [insertKey, if_pos h]
    constructor
    · exact Or.inl
    · rintro (hb | rfl)
      · exact hb
      · exact h
  · simp [insertKey, h]

/-- JS-`Set`-style insertion preserves duplicate-freedom. -/
theorem nodup_insertKey {α : Type} [DecidableEq α] (l : List α) (a : α)
    (h : l.Nodup) : (insertKey l a).Nodup := by
  by_cases hm : a ∈ l
  · simpa [insertKey, hm] using h
  · simp [insertKey, hm, List.nodup_append, h]

/-- C10.  Every overlay-bookkeeping operation of the station manager
preserves the invariant that `renderedStations` equals the key set of
`overlayRefs`: a successful `addStationOverlay` adds the id to both, a
skipped or failed one touches neither, `removeStationOverlay` (also when
invoked by the overlay load-error handler) removes the id from both, and
the clear operations empty both together. -/
theorem c10_rendered_state_invariant (m : ManagerState) (op : OverlayOp)
    (h : RenderedInv m) : RenderedInv (applyOverlayOp m op) := by
  obtain ⟨hr, hk, hiff⟩ := h
  cases op with
  | add s ok =>
    simp only [applyOverlayOp, addStationOverlayStep]
    split_ifs with h1 h2
    · exact ⟨hr, hk, hiff⟩
    · refine ⟨nodup_insertKey _ _ hr, nodup_insertKey _ _ hk, fun id => ?_⟩
      rw [mem_insertKey, mem_insertKey, hiff id]
    · exact ⟨hr, hk, hiff⟩
  | remove i =>
    simp only [applyOverlayOp, removeStationOverlayStep]
    split_ifs with h1
    · refine ⟨hr.erase _, hk.erase _, fun id => ?_⟩
      rw [List.Nodup.mem_erase_iff hr, List.Nodup.mem_erase_iff hk, hiff id]
    · refine ⟨hr.erase _, hk, fun id => ?_⟩
      rw [List.Nodup.mem_erase_iff hr, hiff id]
      constructor
      · rintro ⟨_, hin⟩; exact hin
      · intro hin; exact ⟨fun e => h1 (e ▸ hin), hin⟩
  | loadError i =>
    simp only [applyOverlayOp, removeStationOverlayStep]
    split_ifs with h1
    · refine ⟨hr.erase _, hk.erase _, fun id => ?_⟩
      rw [List.Nodup.mem_erase_iff hr, List.Nodup.mem_erase_iff hk, hiff id]
    · refine ⟨hr.erase _, hk, fun id => ?_⟩
      rw [List.Nodup.mem_erase_iff hr, hiff id]
      constructor
      · rintro ⟨_, hin⟩; exact hin
      · intro hin; exact ⟨fun e => h1 (e ▸ hin), hin⟩
  | clearOverlays => simp [applyOverlayOp, clearAllOverlays, RenderedInv]
  | clearMarkers => simp [applyOverlayOp, clearAllMarkers, clearAllOverlays, RenderedInv]

/-- Witness for C10: the invariant holds for a fresh manager and is carried
through a successful overlay add. -/
theorem c10_rendered_state_invariant_witness :
    RenderedInv (ManagerState.mk0 []) ∧
      RenderedInv (applyOverlayOp (ManagerState.mk0 []) (.add (wStation 0 0 0) true)) :=
  have h0 : RenderedInv (ManagerState.mk0 []) :=
    ⟨List.nodup_nil, List.nodup_nil, by simp [ManagerState.mk0]⟩
  ⟨h0, c10_rendered_state_invariant _ _ h0⟩

/-- The code's candidate filter coincides with the specification's wording
of it. -/
theorem candidateStations_eq_spec (stations : List Station) (b : VBounds) :
    candidateStations stations b = specCandidates stations b := by
  unfold candidateStations specCandidates
  apply List.filter_congr
  intro s _
  simp [isStationInBounds, ge_iff_le, Bool.and_assoc]

/-- The spec's lexicographic priority order is `enumLE` of the code's
distance comparator, transported along distance decoration. -/
theorem specPriorityLe_eq_enumLE (c : ℚ × ℚ) (p q : ℕ × Station) :
    specPriorityLe c p q =
      List.enumLE (fun x y : Station × ℚ => decide (x.2 ≤ y.2))
        (p.1, (p.2, distSq c p.2)) (q.1, (q.2, distSq c q.2)) := by
  rcases lt_trichotomy (distSq c p.2) (distSq c q.2) with h | h | h
  · simp [specPriorityLe, List.enumLE, h, le_of_lt h, not_le.mpr h, ne_of_lt h]
  · simp [specPriorityLe, List.enumLE, h]
  · simp [specPriorityLe, List.enumLE, not_le.mpr h, ne_of_gt h, asymm h]

/-- The sorted, distance-decorated candidate list of `prioritizeStations`
equals the spec-side stable lexicographic sort, stripped of positions. -/
theorem mergeSort_dist_eq_spec (cand : List Station) (c : ℚ × ℚ) :
    (cand.map (fun s => (s, distSq c s))).mergeSort
        (fun x y => decide (x.2 ≤ y.2)) =
      ((cand.enum.mergeSort (specPriorityLe c)).map (fun p => p.2)).map
        (fun s => (s, distSq c s)) := by
  have hmap : ∀ p ∈ cand.enum, ∀ q ∈ cand.enum,
      specPriorityLe c p q =
        List.enumLE (fun x y : Station × ℚ => decide (x.2 ≤ y.2))
          (Prod.map id (fun s => (s, distSq c s)) p)
          (Prod.map id (fun s => (s, distSq c s)) q) := by
    intro p _ q _
    exact specPriorityLe_eq_enumLE c p q
  calc (cand.map (fun s => (s, distSq c s))).mergeSort (fun x y => decide (x.2 ≤ y.2))
      = ((cand.map (fun s => (s, distSq c s))).enum.mergeSort
          (List.enumLE (fun x y => decide (x.2 ≤ y.2)))).map (fun p => p.2) :=
        (List.mergeSort_enum).symm
    _ = ((cand.enum.map (Prod.map id (fun s => (s, distSq c s)))).mergeSort
          (List.enumLE (fun x y => decide (x.2 ≤ y.2)))).map (fun p => p.2) := by
        rw [List.enum_map]
    _ = ((cand.enum.mergeSort (specPriorityLe c)).map
          (Prod.map id (fun s => (s, distSq c s)))).map (fun p => p.2) := by
        rw [List.map_mergeSort hmap]
    _ = ((cand.enum.mergeSort (specPriorityLe c)).map (fun p => p.2)).map
          (fun s => (s, distSq c s)) := by
        simp [List.map_map, Function.comp, Prod.map]

/-- C1.  In non-clustered mode, `updateIndividualStations` renders exactly
the visible stations whose bounds-centroid lies within the buffered bounds
when their number is at most the device marker cap; when it exceeds the
cap it renders exactly `cap` stations — the `cap` candidates closest to
the viewport center (squared distance orders identically to Euclidean
distance), ascending, ties broken by original list order (the spec-side
selection `specClosestSelection` sorts by (distance, original position)
lexicographically and takes the first `cap`). -/
theorem c1_individual_rendering (stations : List Station) (b : VBounds) (cap : ℕ)
    (hwf : ∀ s ∈ stations, s.bounds.length = 2) :
    ((specCandidates stations b).length ≤ cap →
      updateIndividualStations stations b cap = specCandidates stations b) ∧
    (cap < (specCandidates stations b).length →
      (updateIndividualStations stations b cap).length = cap ∧
        updateIndividualStations stations b cap = specClosestSelection stations b cap) := by
  have hcand := candidateStations_eq_spec stations b
  constructor
  · intro hle
    unfold updateIndividualStations prioritizeStations
    rw [hcand, if_pos hle]
  · intro hgt
    have hnle : ¬ (specCandidates stations b).length ≤ cap := not_le.mpr hgt
    have heq : updateIndividualStations stations b cap =
        specClosestSelection stations b cap := by
      unfold updateIndividualStations prioritizeStations
      rw [hcand, if_neg hnle]
      unfold specClosestSelection
      dsimp only
      rw [mergeSort_dist_eq_spec (specCandidates stations b) (boundsCenter b)]
      rw [← List.map_take, List.map_map]
      have hid : ((fun x : Station × ℚ => x.1) ∘
          fun s : Station => (s, distSq (boundsCenter b) s)) = id := rfl
      rw [hid, List.map_id]
    refine ⟨?_, heq⟩
    rw [heq]
    unfold specClosestSelection
    simp only [List.length_take, List.length_map, List.length_mergeSort, List.enum_length]
    omega

/-- Witness for C1 at three concrete stations and cap 1 (truncation case)
and cap 3 (no-truncation case). -/
theorem c1_individual_rendering_witness :
    (∀ s ∈ c1Stations, s.bounds.length = 2) ∧
      1 < (specCandidates c1Stations c1B).length ∧
      (updateIndividualStations c1Stations c1B 1).length = 1 ∧
      updateIndividualStations c1Stations c1B 1 = specClosestSelection c1Stations c1B 1 := by
  have hwf : ∀ s ∈ c1Stations, s.bounds.length = 2 := by decide
  have hgt : 1 < (specCandidates c1Stations c1B).length := by
    with_unfolding_all decide
  have h := (c1_individual_rendering c1Stations c1B 1 hwf).2 hgt
  exact ⟨hwf, hgt, h.1, h.2⟩

/-! ### Operation-trace bookkeeping lemmas for the station manager -/

theorem removedOverlayIds_append (l1 l2 : List MapOp) :
    removedOverlayIds (l1 ++ l2) = removedOverlayIds l1 ++ removedOverlayIds l2 := by
  simp [removedOverlayIds]

theorem addedOverlayIds_append (l1 l2 : List MapOp) :
    addedOverlayIds (l1 ++ l2) = addedOverlayIds l1 ++ addedOverlayIds l2 := by
  simp [addedOverlayIds]

theorem removedClusterIds_append (l1 l2 : List MapOp) :
    removedClusterIds (l1 ++ l2) = removedClusterIds l1 ++ removedClusterIds l2 := by
  simp [removedClusterIds]

theorem addedClusterIds_append (l1 l2 : List MapOp) :
    addedClusterIds (l1 ++ l2) = addedClusterIds l1 ++ addedClusterIds l2 := by
  simp [addedClusterIds]

theorem extract_overlay_removes (ids : List String) :
    removedOverlayIds (ids.map (fun id => MapOp.removeOverlay id)) = ids ∧
    addedOverlayIds (ids.map (fun id => MapOp.removeOverlay id)) = [] ∧
    removedClusterIds (ids.map (fun id => MapOp.removeOverlay id)) = [] ∧
    addedClusterIds (ids.map (fun id => MapOp.removeOverlay id)) = [] := by
  induction ids with
  | nil => exact ⟨rfl, rfl, rfl, rfl⟩
  | cons a l ih =>
    simpa [removedOverlayIds, addedOverlayIds, removedClusterIds, addedClusterIds,
      List.filterMap_cons] using ih

theorem extract_cluster_removes (ids : List ℕ) :
    removedOverlayIds (ids.map (fun c => MapOp.removeClusterMarker c)) = [] ∧
    addedOverlayIds (ids.map (fun c => MapOp.removeClusterMarker c)) = [] ∧
    removedClusterIds (ids.map (fun c => MapOp.removeClusterMarker c)) = ids ∧
    addedClusterIds (ids.map (fun c => MapOp.removeClusterMarker c)) = [] := by
  induction ids with
  | nil => exact ⟨rfl, rfl, rfl, rfl⟩
  | cons a l ih =>
    simpa [removedOverlayIds, addedOverlayIds, removedClusterIds, addedClusterIds,
      List.filterMap_cons] using ih

/-- The clear step resets the rendered bookkeeping wholesale and issues one
remove per materialised overlay and cluster marker. -/
theorem clearAllMarkers_spec (m : ManagerState) :
    (clearAllMarkers m).1 = ⟨m.stations, [], [], [], []⟩ ∧
    removedOverlayIds (clearAllMarkers m).2 = m.overlayKeys ∧
    addedOverlayIds (clearAllMarkers m).2 = [] ∧
    removedClusterIds (clearAllMarkers m).2 = m.clusterKeys ∧
    addedClusterIds (clearAllMarkers m).2 = [] := by
  refine ⟨rfl, ?_, ?_, ?_, ?_⟩ <;>
    simp [clearAllMarkers, clearAllOverlays, removedOverlayIds_append, addedOverlayIds_append,
      removedClusterIds_append, addedClusterIds_append,
      (extract_overlay_removes m.overlayKeys).1, (extract_overlay_removes m.overlayKeys).2.1,
      (extract_overlay_removes m.overlayKeys).2.2.1,
      (extract_overlay_removes m.overlayKeys).2.2.2,
      (extract_cluster_removes m.clusterKeys).1, (extract_cluster_removes m.clusterKeys).2.1,
      (extract_cluster_removes m.clusterKeys).2.2.1,
      (extract_cluster_removes m.clusterKeys).2.2.2]

/-- `addStationOverlay` touches only the overlay bookkeeping and emits at
most one overlay add. -/
theorem addStationOverlayStep_frame (m : ManagerState) (s : Station) (ok : Bool) :
    (addStationOverlayStep m s ok).1.stations = m.stations ∧
    (addStationOverlayStep m s ok).1.clusterKeys = m.clusterKeys ∧
    (addStationOverlayStep m s ok).1.loadingQueue = m.loadingQueue ∧
    removedOverlayIds (addStationOverlayStep m s ok).2 = [] ∧
    removedClusterIds (addStationOverlayStep m s ok).2 = [] ∧
    addedClusterIds (addStationOverlayStep m s ok).2 = [] := by
  unfold addStationOverlayStep
  split_ifs <;> exact ⟨rfl, rfl, rfl, rfl, rfl, rfl⟩

/-- Overlay-key membership after `addStationOverlay` in terms of the ops it
emitted. -/
theorem addStationOverlayStep_overlay_mem (m : ManagerState) (s : Station) (ok : Bool)
    (id : String) :
    (id ∈ (addStationOverlayStep m s ok).1.overlayKeys ↔
      id ∈ m.overlayKeys ∨ id ∈ addedOverlayIds (addStationOverlayStep m s ok).2) := by
  unfold addStationOverlayStep
  split_ifs with h1 h2
  · simp [addedOverlayIds]
  · simp [mem_insertKey, addedOverlayIds, List.filterMap_cons]
  · simp [addedOverlayIds]

/-- Queue drain: frame conditions and the shape of its op trace. -/
theorem drainQueue_frame (queue : List Station) : ∀ m : ManagerState,
    (drainQueue m queue).1.stations = m.stations ∧
    (drainQueue m queue).1.clusterKeys = m.clusterKeys ∧
    (drainQueue m queue).1.loadingQueue = m.loadingQueue ∧
    removedOverlayIds (drainQueue m queue).2 = [] ∧
    removedClusterIds (drainQueue m queue).2 = [] ∧
    addedClusterIds (drainQueue m queue).2 = [] := by
  induction queue with
  | nil => intro m; exact ⟨rfl, rfl, rfl, rfl, rfl, rfl⟩
  | cons s rest ih =>
    intro m
    obtain ⟨i1, i2, i3, i4, i5, i6⟩ := ih (addStationOverlayStep m s true).1
    obtain ⟨a1, a2, a3, a4, a5, a6⟩ := addStationOverlayStep_frame m s true
    refine ⟨?_, ?_, ?_, ?_, ?_, ?_⟩ <;>
      simp [drainQueue, i1, i2, i3, i4, i5, i6, a1, a2, a3, a4, a5, a6,
        removedOverlayIds_append, removedClusterIds_append, addedClusterIds_append]

/-- Queue drain: overlay-key membership in terms of the emitted adds. -/
theorem drainQueue_overlay_mem (queue : List Station) : ∀ (m : ManagerState) (id : String),
    id ∈ (drainQueue m queue).1.overlayKeys ↔
      id ∈ m.overlayKeys ∨ id ∈ addedOverlayIds (drainQueue m queue).2 := by
  induction queue with
  | nil => intro m id; simp [drainQueue, addedOverlayIds]
  | cons s rest ih =>
    intro m id
    have hstep := addStationOverlayStep_overlay_mem m s true id
    have hrec := ih (addStationOverlayStep m s true).1 id
    simp only [drainQueue, addedOverlayIds_append, List.mem_append]
    rw [hrec, hstep]
    tauto

/-- The stale-removal loop does nothing when nothing is rendered. -/
theorem removeStale_nil (m : ManagerState) (newIds : List String) :
    removeStale m [] newIds = (m, []) := rfl

/-- `new Set(l)` keeps a duplicate-free list unchanged. -/
theorem dedupFirst_eq_self {α : Type} [DecidableEq α] (l : List α) (h : l.Nodup) :
    dedupFirst l = l := by
  suffices hgen : ∀ acc : List α, (∀ a ∈ l, a ∉ acc) → l.foldl insertKey acc = acc ++ l by
    simpa using hgen [] (by simp)
  induction l with
  | nil => intro acc _; simp
  | cons a rest ih =>
    intro acc hacc
    have ha : a ∉ acc := hacc a (by simp)
    have hrest : ∀ x ∈ rest, x ∉ acc ++ [a] := by
      intro x hx
      simp only [List.mem_append, List.mem_singleton]
      rintro (hxa | rfl)
      · exact hacc x (by simp [hx]) hxa
      · exact (List.nodup_cons.mp h).1 hx
    have := ih (List.nodup_cons.mp h).2 (acc ++ [a]) hrest
    simp only [List.foldl_cons, insertKey, if_neg ha]
    rw [this, List.append_assoc]
    rfl

/-- Every selected station comes from the authoritative list. -/
theorem updateIndividualStations_subset (stations : List Station) (b : VBounds) (cap : ℕ) :
    ∀ s ∈ updateIndividualStations stations b cap, s ∈ stations := by
  intro s hs
  unfold updateIndividualStations prioritizeStations at hs
  split_ifs at hs with h
  · exact List.mem_of_mem_filter hs
  · simp only [List.mem_map] at hs
    obtain ⟨x, hx, rfl⟩ := hs
    have hx2 := List.mem_of_mem_take hx
    rw [List.mem_mergeSort] at hx2
    simp only [List.mem_map] at hx2
    obtain ⟨t, ht, rfl⟩ := hx2
    exact List.mem_of_mem_filter ht

/-- Selected-station ids are duplicate-free when the authoritative ids are. -/
theorem updateIndividualStations_ids_nodup (stations : List Station) (b : VBounds) (cap : ℕ)
    (h : (stations.map (fun s => s.id)).Nodup) :
    ((updateIndividualStations stations b cap).map (fun s => s.id)).Nodup := by
  have hsubl : List.Sublist (candidateStations stations b) stations := by
    unfold candidateStations
    exact List.filter_sublist stations
  have hcand : ((candidateStations stations b).map (fun s => s.id)).Nodup :=
    (hsubl.map (fun s => s.id)).nodup h
  unfold updateIndividualStations prioritizeStations
  split_ifs with hle
  · exact hcand
  · set pairs := (candidateStations stations b).map
      (fun s => (s, distSq (boundsCenter b) s)) with hpairs
    set sorted := pairs.mergeSort (fun x y => decide (x.2 ≤ y.2)) with hsorted
    have hperm : List.Perm sorted pairs := List.mergeSort_perm pairs _
    have h1 : (sorted.map (fun x : Station × ℚ => x.1.id)).Nodup := by
      rw [List.Perm.nodup_iff (hperm.map (fun x : Station × ℚ => x.1.id))]
      simpa [hpairs, List.map_map, Function.comp] using hcand
    have h2 : ((sorted.take cap).map (fun x : Station × ℚ => x.1.id)).Nodup :=
      ((List.take_sublist cap sorted).map (fun x : Station × ℚ => x.1.id)).nodup h1
    simpa [List.map_map, Function.comp] using h2

/-- The selection size is the candidate count clipped at the cap. -/
theorem updateIndividualStations_length (stations : List Station) (b : VBounds) (cap : ℕ) :
    (updateIndividualStations stations b cap).length =
      min (candidateStations stations b).length cap := by
  unfold updateIndividualStations prioritizeStations
  split_ifs with h
  · omega
  · simp only [List.length_map, List.length_take, List.length_mergeSort]
    omega

/-- A settle recompute decomposes into the unconditional clear of the
previous rendered state followed by a rebuild that depends only on the
station list: the post-state and the rebuild ops are those of the same
update run from a blank rendered state. -/
theorem updateVisibleStations_decompose (cfg : ManagerCfg) (q : ClusterQuery) (v : MapView)
    (m : ManagerState) :
    updateVisibleStations cfg q v m =
      ((updateVisibleStations cfg q v ⟨m.stations, [], [], [], []⟩).1,
        (clearAllMarkers m).2 ++ (updateVisibleStations cfg q v ⟨m.stations, [], [], [], []⟩).2) := by
  unfold updateVisibleStations clearAllMarkers clearAllOverlays
  dsimp only
  split <;> simp

/-- Fold of the queue-building loop over ids none of which are rendered. -/
theorem queue_foldl_filterMap (stations : List Station) (ids : List String) :
    ∀ q0 : List Station,
      (ids.foldl
        (fun acc id =>
          if id ∈ ([] : List String) then acc
          else
            match stations.find? (fun s => s.id = id) with
            | some s => acc ++ [s]
            | none => acc)
        q0) =
      q0 ++ ids.filterMap (fun id => stations.find? (fun s => s.id = id)) := by
  induction ids with
  | nil => intro q0; simp
  | cons i rest ih =>
    intro q0
    simp only [List.foldl_cons, List.not_mem_nil, if_false, List.filterMap_cons]
    cases hf : stations.find? (fun s => s.id = i) with
    | none => simpa [hf] using ih q0
    | some s => simpa [hf] using ih (q0 ++ [s])

/-- The stations found for a list of ids that all occur in the authoritative
list: their ids reproduce the list, and each found station belongs to the
authoritative list. -/
theorem filterMap_find_spec (stations : List Station) (ids : List String)
    (h : ∀ i ∈ ids, ∃ s ∈ stations, s.id = i) :
    ((ids.filterMap (fun id => stations.find? (fun s => s.id = id))).map
        (fun s => s.id) = ids) ∧
      (∀ s ∈ ids.filterMap (fun id => stations.find? (fun s => s.id = id)), s ∈ stations) := by
  induction ids with
  | nil => exact ⟨rfl, by simp⟩
  | cons i rest ih =>
    obtain ⟨hmap, hmem⟩ := ih (fun j hj => h j (List.mem_cons_of_mem i hj))
    obtain ⟨s, hs, hsid⟩ := h i (List.mem_cons_self i rest)
    have hsome : (stations.find? (fun s => s.id = i)).isSome := by
      rw [List.find?_isSome]
      exact ⟨s, hs, by simp [hsid]⟩
    obtain ⟨t, hft⟩ := Option.isSome_iff_exists.mp hsome
    have htid : t.id = i := by
      have := List.find?_some hft
      simpa using this
    have htmem : t ∈ stations := List.mem_of_find?_eq_some hft
    refine ⟨?_, ?_⟩
    · simp [List.filterMap_cons, hft, htid, hmap]
    · intro x hx
      simp only [List.filterMap_cons, hft, List.mem_cons] at hx
      rcases hx with rfl | hx
      · exact htmem
      · exact hmem x hx

/-- Exact effect of a queue drain on fresh overlay bookkeeping. -/
theorem drainQueue_exact (queue : List Station) : ∀ m : ManagerState,
    (∀ s ∈ queue, jsTruthyStr s.imageUrl = true) →
    ((queue.map (fun s => s.id)).Nodup) →
    (∀ s ∈ queue, s.id ∉ m.renderedStations) →
    (∀ s ∈ queue, s.id ∉ m.overlayKeys) →
    (drainQueue m queue).1.overlayKeys = m.overlayKeys ++ queue.map (fun s => s.id) ∧
    (drainQueue m queue).1.renderedStations =
      m.renderedStations ++ queue.map (fun s => s.id) ∧
    (drainQueue m queue).2 = (queue.map (fun s => s.id)).map (fun id => MapOp.addOverlay id) := by
  induction queue with
  | nil => intro m _ _ _ _; simp [drainQueue]
  | cons s rest ih =>
    intro m himg hnd hrend hkeys
    have himg1 : jsTruthyStr s.imageUrl = true := himg s (by simp)
    have hrend1 : s.id ∉ m.renderedStations := hrend s (by simp)
    have hkeys1 : s.id ∉ m.overlayKeys := hkeys s (by simp)
    have hstep : addStationOverlayStep m s true =
        ({ m with
            overlayKeys := m.overlayKeys ++ [s.id]
            renderedStations := m.renderedStations ++ [s.id] },
          [.addOverlay s.id]) := by
      unfold addStationOverlayStep
      rw [if_neg (by simp [himg1, hrend1]), if_pos rfl]
      simp [insertKey, hrend1, hkeys1]
    have hhead : s.id ∉ rest.map (fun t => t.id) := (List.nodup_cons.mp (by simpa using hnd)).1
    obtain ⟨i1, i2, i3⟩ := ih
      { m with
          overlayKeys := m.overlayKeys ++ [s.id]
          renderedStations := m.renderedStations ++ [s.id] }
      (fun t ht => himg t (by simp [ht]))
      (by simpa using (List.nodup_cons.mp (by simpa using hnd)).2)
      (by
        intro t ht
        simp only [List.mem_append, List.mem_singleton]
        rintro (hin | heq)
        · exact hrend t (by simp [ht]) hin
        · exact hhead (heq ▸ List.mem_map_of_mem (fun t => t.id) ht))
      (by
        intro t ht
        simp only [List.mem_append, List.mem_singleton]
        rintro (hin | heq)
        · exact hkeys t (by simp [ht]) hin
        · exact hhead (heq ▸ List.mem_map_of_mem (fun t => t.id) ht))
    refine ⟨?_, ?_, ?_⟩ <;>
      simp [drainQueue, hstep, i1, i2, i3, List.append_assoc]

theorem extract_overlay_adds (ids : List String) :
    removedOverlayIds (ids.map (fun id => MapOp.addOverlay id)) = [] ∧
    addedOverlayIds (ids.map (fun id => MapOp.addOverlay id)) = ids ∧
    removedClusterIds (ids.map (fun id => MapOp.addOverlay id)) = [] ∧
    addedClusterIds (ids.map (fun id => MapOp.addOverlay id)) = [] := by
  induction ids with
  | nil => exact ⟨rfl, rfl, rfl, rfl⟩
  | cons a l ih =>
    simpa [removedOverlayIds, addedOverlayIds, removedClusterIds, addedClusterIds,
      List.filterMap_cons] using ih

/-- One settle recompute of the non-clustered path (clustering disabled or
zoom at/above the disable threshold), for a station list with truthy image
URLs and duplicate-free ids: the trace removes exactly the previously
materialised overlays and then adds exactly the selected stations, which
become the new overlay key set. -/
theorem update_noncluster_spec (cfg : ManagerCfg) (q : ClusterQuery) (v : MapView)
    (m : ManagerState)
    (hpath : (cfg.clusteringEnabled && shouldCluster v.zoom) = false)
    (himg : ∀ s ∈ m.stations, jsTruthyStr s.imageUrl = true)
    (hids : (m.stations.map (fun s => s.id)).Nodup) :
    removedOverlayIds (updateVisibleStations cfg q v m).2 = m.overlayKeys ∧
    addedOverlayIds (updateVisibleStations cfg q v m).2 =
      (updateIndividualStations m.stations (getCurrentBounds v)
        (getMaxVisibleStations cfg)).map (fun s => s.id) ∧
    (updateVisibleStations cfg q v m).1.overlayKeys =
      (updateIndividualStations m.stations (getCurrentBounds v)
        (getMaxVisibleStations cfg)).map (fun s => s.id) ∧
    (updateVisibleStations cfg q v m).1.stations = m.stations := by
  have hsub := updateIndividualStations_subset m.stations (getCurrentBounds v)
    (getMaxVisibleStations cfg)
  have hnods := updateIndividualStations_ids_nodup m.stations (getCurrentBounds v)
    (getMaxVisibleStations cfg) hids
  have hded := dedupFirst_eq_self _ hnods
  have hex : ∀ i ∈ (updateIndividualStations m.stations (getCurrentBounds v)
      (getMaxVisibleStations cfg)).map (fun s => s.id), ∃ s ∈ m.stations, s.id = i := by
    intro i hi
    obtain ⟨t, ht, rfl⟩ := List.mem_map.mp hi
    exact ⟨t, hsub t ht, rfl⟩
  obtain ⟨hqmap, hqmem⟩ := filterMap_find_spec m.stations _ hex
  have hqimg : ∀ s ∈ ((updateIndividualStations m.stations (getCurrentBounds v)
      (getMaxVisibleStations cfg)).map (fun s => s.id)).filterMap
        (fun id => m.stations.find? (fun s => s.id = id)),
      jsTruthyStr s.imageUrl = true := fun s hs => himg s (hqmem s hs)
  have hqnd : ((((updateIndividualStations m.stations (getCurrentBounds v)
      (getMaxVisibleStations cfg)).map (fun s => s.id)).filterMap
        (fun id => m.stations.find? (fun s => s.id = id))).map (fun s => s.id)).Nodup := by
    rw [hqmap]; exact hnods
  obtain ⟨d1, d2, d3⟩ := drainQueue_exact _ (⟨m.stations, [], [], [], []⟩ : ManagerState)
    hqimg hqnd (by simp) (by simp)
  obtain ⟨f1, f2, f3, f4, f5, f6⟩ := drainQueue_frame
    ((((updateIndividualStations m.stations (getCurrentBounds v)
      (getMaxVisibleStations cfg)).map (fun s => s.id)).filterMap
        (fun id => m.stations.find? (fun s => s.id = id))))
    (⟨m.stations, [], [], [], []⟩ : ManagerState)
  have hcl := clearAllMarkers_spec m
  have hmain : updateVisibleStations cfg q v m =
      ((drainQueue (⟨m.stations, [], [], [], []⟩ : ManagerState)
          ((((updateIndividualStations m.stations (getCurrentBounds v)
            (getMaxVisibleStations cfg)).map (fun s => s.id)).filterMap
              (fun id => m.stations.find? (fun s => s.id = id))))).1,
        (clearAllMarkers m).2 ++
          (drainQueue (⟨m.stations, [], [], [], []⟩ : ManagerState)
            ((((updateIndividualStations m.stations (getCurrentBounds v)
              (getMaxVisibleStations cfg)).map (fun s => s.id)).filterMap
                (fun id => m.stations.find? (fun s => s.id = id))))).2) := by
    unfold updateVisibleStations
    dsimp only
    rw [hpath]
    simp only [Bool.false_eq_true, if_false]
    rw [hcl.1]
    unfold handleStationUpdates
    dsimp only
    rw [removeStale_nil]
    dsimp only
    rw [hded, queue_foldl_filterMap]
    simp
  rw [hmain]
  refine ⟨?_, ?_, ?_, ?_⟩
  · rw [removedOverlayIds_append, hcl.2.1, d3, (extract_overlay_adds _).1]
    simp
  · rw [addedOverlayIds_append, hcl.2.2.1, d3, (extract_overlay_adds _).2.1, hqmap]
    simp
  · rw [d1, hqmap]
    simp
  · exact f1

set_option maxRecDepth 100000 in
/-- C2, counterexample.  In the claim's scenario — 150 visible stations with
distinct ids inside the buffered viewport before and after a 1px pan, on a
mobile standard-tier device (cap 50), non-clustered path (zoom 16) — the
settle recompute after the pan issues 50 overlay removes and 50 overlay
adds against the map, not zero. -/
theorem c2_counterexample :
    panStations.length = 150 ∧
    getMaxVisibleStations panCfg = 50 ∧
    (∀ s ∈ panStations,
      (s.visible && isStationInBounds s (getCurrentBounds panView1)) = true) ∧
    (∀ s ∈ panStations,
      (s.visible && isStationInBounds s (getCurrentBounds panView2)) = true) ∧
    (removedOverlayIds (updateVisibleStations panCfg emptyQuery panView2
        (updateVisibleStations panCfg emptyQuery panView1
          (ManagerState.mk0 panStations)).1).2).length = 50 ∧
    (addedOverlayIds (updateVisibleStations panCfg emptyQuery panView2
        (updateVisibleStations panCfg emptyQuery panView1
          (ManagerState.mk0 panStations)).1).2).length = 50 := by
  with_unfolding_all decide

/-- C2, amended.  A sub-buffer 1px pan does not leave the overlay set
untouched: `updateVisibleStations` always clears and rebuilds.  For every
set of 150 visible stations (truthy image URLs, distinct ids) inside the
buffered viewport before and after the pan, on a cap-50 device in the
non-clustered path, the settle recompute after the pan issues exactly one
remove per previously materialised overlay and one add per selected
station — 50 removes and 50 adds — even though the candidate set is
unchanged. -/
theorem c2_amended_pan_full_rebuild (cfg : ManagerCfg) (q : ClusterQuery)
    (v1 v2 : MapView) (stations : List Station)
    (hcap : getMaxVisibleStations cfg = 50)
    (hlen : stations.length = 150)
    (hpath1 : (cfg.clusteringEnabled && shouldCluster v1.zoom) = false)
    (hpath2 : (cfg.clusteringEnabled && shouldCluster v2.zoom) = false)
    (himg : ∀ s ∈ stations, jsTruthyStr s.imageUrl = true)
    (hids : (stations.map (fun s => s.id)).Nodup)
    (hin1 : ∀ s ∈ stations,
      (s.visible && isStationInBounds s (getCurrentBounds v1)) = true)
    (hin2 : ∀ s ∈ stations,
      (s.visible && isStationInBounds s (getCurrentBounds v2)) = true) :
    (removedOverlayIds (updateVisibleStations cfg q v2
        (updateVisibleStations cfg q v1 (ManagerState.mk0 stations)).1).2).length = 50 ∧
    (addedOverlayIds (updateVisibleStations cfg q v2
        (updateVisibleStations cfg q v1 (ManagerState.mk0 stations)).1).2).length = 50 := by
  obtain ⟨r1, a1, k1, st1⟩ := update_noncluster_spec cfg q v1 (ManagerState.mk0 stations)
    hpath1 himg hids
  have hst1 : (updateVisibleStations cfg q v1 (ManagerState.mk0 stations)).1.stations =
      stations := st1
  obtain ⟨r2, a2, k2, st2⟩ := update_noncluster_spec cfg q v2
    (updateVisibleStations cfg q v1 (ManagerState.mk0 stations)).1
    hpath2 (by rw [hst1]; exact himg) (by rw [hst1]; exact hids)
  have hc1 : candidateStations stations (getCurrentBounds v1) = stations := by
    unfold candidateStations
    exact List.filter_eq_self.mpr hin1
  have hc2 : candidateStations stations (getCurrentBounds v2) = stations := by
    unfold candidateStations
    exact List.filter_eq_self.mpr hin2
  have hlen1 : (updateIndividualStations stations (getCurrentBounds v1)
      (getMaxVisibleStations cfg)).length = 50 := by
    rw [updateIndividualStations_length, hc1, hlen, hcap]
    omega
  have hlen2 : (updateIndividualStations stations (getCurrentBounds v2)
      (getMaxVisibleStations cfg)).length = 50 := by
    rw [updateIndividualStations_length, hc2, hlen, hcap]
    omega
  rw [hst1] at a2
  have hmk : (ManagerState.mk0 stations).stations = stations := rfl
  rw [hmk] at k1
  constructor
  · rw [r2, k1, List.length_map, hlen1]
  · rw [a2, List.length_map, hlen2]

theorem extract_cluster_adds (ids : List ℕ) :
    removedOverlayIds (ids.map (fun c => MapOp.addClusterMarker c)) = [] ∧
    addedOverlayIds (ids.map (fun c => MapOp.addClusterMarker c)) = [] ∧
    removedClusterIds (ids.map (fun c => MapOp.addClusterMarker c)) = [] ∧
    addedClusterIds (ids.map (fun c => MapOp.addClusterMarker c)) = ids := by
  induction ids with
  | nil => exact ⟨rfl, rfl, rfl, rfl⟩
  | cons a l ih =>
    simpa [removedOverlayIds, addedOverlayIds, removedClusterIds, addedClusterIds,
      List.filterMap_cons] using ih

theorem extract_clusterFeature_adds (cs : List ClusterFeature) :
    removedOverlayIds (cs.map (fun c => MapOp.addClusterMarker c.clusterId)) = [] ∧
    addedOverlayIds (cs.map (fun c => MapOp.addClusterMarker c.clusterId)) = [] ∧
    removedClusterIds (cs.map (fun c => MapOp.addClusterMarker c.clusterId)) = [] ∧
    addedClusterIds (cs.map (fun c => MapOp.addClusterMarker c.clusterId)) =
      cs.map (fun c => c.clusterId) := by
  induction cs with
  | nil => exact ⟨rfl, rfl, rfl, rfl⟩
  | cons a l ih =>
    simpa [removedOverlayIds, addedOverlayIds, removedClusterIds, addedClusterIds,
      List.filterMap_cons] using ih

/-- Cluster-marker rendering: frame conditions and its op trace. -/
theorem renderClusters_frame (cs : List ClusterFeature) : ∀ m : ManagerState,
    (renderClusters m cs).1.stations = m.stations ∧
    (renderClusters m cs).1.overlayKeys = m.overlayKeys ∧
    (renderClusters m cs).1.renderedStations = m.renderedStations ∧
    (renderClusters m cs).1.loadingQueue = m.loadingQueue ∧
    (renderClusters m cs).2 = cs.map (fun c => MapOp.addClusterMarker c.clusterId) := by
  induction cs with
  | nil => intro m; exact ⟨rfl, rfl, rfl, rfl, rfl⟩
  | cons c rest ih =>
    intro m
    obtain ⟨i1, i2, i3, i4, i5⟩ := ih { m with clusterKeys := insertKey m.clusterKeys c.clusterId }
    exact ⟨i1, i2, i3, i4, by simp [renderClusters, i5]⟩

/-- Cluster-key membership after cluster-marker rendering, in terms of the
emitted adds. -/
theorem renderClusters_cluster_mem (cs : List ClusterFeature) :
    ∀ (m : ManagerState) (cid : ℕ),
      cid ∈ (renderClusters m cs).1.clusterKeys ↔
        cid ∈ m.clusterKeys ∨ cid ∈ addedClusterIds (renderClusters m cs).2 := by
  induction cs with
  | nil => intro m cid; simp [renderClusters, addedClusterIds]
  | cons c rest ih =>
    intro m cid
    have hrec := ih { m with clusterKeys := insertKey m.clusterKeys c.clusterId } cid
    simp only [renderClusters, addedClusterIds, List.filterMap_cons] at *
    rw [hrec, mem_insertKey]
    simp only [List.mem_cons]
    tauto

/-- Individual-point rendering: frame conditions and op-trace shape. -/
theorem renderIndividualPoints_frame (ps : List PointFeature) : ∀ m : ManagerState,
    (renderIndividualPoints m ps).1.stations = m.stations ∧
    (renderIndividualPoints m ps).1.clusterKeys = m.clusterKeys ∧
    (renderIndividualPoints m ps).1.loadingQueue = m.loadingQueue ∧
    removedOverlayIds (renderIndividualPoints m ps).2 = [] ∧
    removedClusterIds (renderIndividualPoints m ps).2 = [] ∧
    addedClusterIds (renderIndividualPoints m ps).2 = [] := by
  induction ps with
  | nil => intro m; exact ⟨rfl, rfl, rfl, rfl, rfl, rfl⟩
  | cons p rest ih =>
    intro m
    cases hf : m.stations.find? (fun s => s.id = p.pid) with
    | none =>
      obtain ⟨i1, i2, i3, i4, i5, i6⟩ := ih m
      refine ⟨?_, ?_, ?_, ?_, ?_, ?_⟩ <;> simp [renderIndividualPoints, hf, i1, i2, i3, i4, i5, i6]
    | some s =>
      obtain ⟨a1, a2, a3, a4, a5, a6⟩ := addStationOverlayStep_frame m s true
      obtain ⟨i1, i2, i3, i4, i5, i6⟩ := ih (addStationOverlayStep m s true).1
      refine ⟨?_, ?_, ?_, ?_, ?_, ?_⟩ <;>
        simp [renderIndividualPoints, hf, a1, a2, a3, a4, a5, a6, i1, i2, i3, i4, i5, i6,
          removedOverlayIds_append, removedClusterIds_append, addedClusterIds_append]

/-- Overlay-key membership after individual-point rendering, in terms of
the emitted adds. -/
theorem renderIndividualPoints_overlay_mem (ps : List PointFeature) :
    ∀ (m : ManagerState) (id : String),
      id ∈ (renderIndividualPoints m ps).1.overlayKeys ↔
        id ∈ m.overlayKeys ∨ id ∈ addedOverlayIds (renderIndividualPoints m ps).2 := by
  induction ps with
  | nil => intro m id; simp [renderIndividualPoints, addedOverlayIds]
  | cons p rest ih =>
    intro m id
    cases hf : m.stations.find? (fun s => s.id = p.pid) with
    | none =>
      have hrec := ih m id
      simp only [renderIndividualPoints, hf]
      exact hrec
    | some s =>
      have hstep := addStationOverlayStep_overlay_mem m s true id
      have hrec := ih (addStationOverlayStep m s true).1 id
      simp only [renderIndividualPoints, hf, addedOverlayIds_append, List.mem_append]
      rw [hrec, hstep]
      tauto

/-- The rebuild from a blank rendered state issues no removes, and its
post-state key sets are exactly (setwise) the adds it issued; the station
list is untouched.  Holds on both the clustered and the individual path. -/
theorem update_trace_spec (cfg : ManagerCfg) (q : ClusterQuery) (v : MapView)
    (m : ManagerState) :
    (updateVisibleStations cfg q v m).1.stations = m.stations ∧
    removedOverlayIds (updateVisibleStations cfg q v m).2 = m.overlayKeys ∧
    removedClusterIds (updateVisibleStations cfg q v m).2 = m.clusterKeys ∧
    (∀ id, id ∈ (updateVisibleStations cfg q v m).1.overlayKeys ↔
      id ∈ addedOverlayIds (updateVisibleStations cfg q v m).2) ∧
    (∀ cid, cid ∈ (updateVisibleStations cfg q v m).1.clusterKeys ↔
      cid ∈ addedClusterIds (updateVisibleStations cfg q v m).2) := by
  have hcl := clearAllMarkers_spec m
  unfold updateVisibleStations
  dsimp only
  rw [hcl.1]
  cases hb : cfg.clusteringEnabled && shouldCluster v.zoom with
  | true =>
    simp only [hb, if_true]
    unfold updateClusters
    dsimp only
    set cs := (q (getCurrentBounds v) ⌊v.zoom⌋).clusters with hcs
    set ps := (q (getCurrentBounds v) ⌊v.zoom⌋).points with hps
    obtain ⟨c1, c2, c3, c4, c5⟩ := renderClusters_frame cs
      (⟨m.stations, [], [], [], []⟩ : ManagerState)
    obtain ⟨p1, p2, p3, p4, p5, p6⟩ := renderIndividualPoints_frame ps
      (renderClusters (⟨m.stations, [], [], [], []⟩ : ManagerState) cs).1
    have hcmem := renderClusters_cluster_mem cs (⟨m.stations, [], [], [], []⟩ : ManagerState)
    have hpmem := renderIndividualPoints_overlay_mem ps
      (renderClusters (⟨m.stations, [], [], [], []⟩ : ManagerState) cs).1
    refine ⟨?_, ?_, ?_, ?_, ?_⟩
    · simp [p1, c1]
    · rw [removedOverlayIds_append, removedOverlayIds_append, hcl.2.1, c5,
        (extract_clusterFeature_adds cs).1, p4]
      simp
    · rw [removedClusterIds_append, removedClusterIds_append, hcl.2.2.2.1, c5,
        (extract_clusterFeature_adds cs).2.2.1, p5]
      simp
    · intro id
      rw [hpmem, c2, addedOverlayIds_append, addedOverlayIds_append, hcl.2.2.1, c5,
        (extract_clusterFeature_adds cs).2.1]
      simp
    · intro cid
      rw [p2, hcmem, addedClusterIds_append, addedClusterIds_append, hcl.2.2.2.2, c5,
        (extract_clusterFeature_adds cs).2.2.2, p6]
      simp
  | false =>
    simp only [hb, Bool.false_eq_true, if_false]
    unfold handleStationUpdates
    dsimp only
    rw [removeStale_nil]
    dsimp only
    simp only [List.nil_append]
    set queue := (dedupFirst (List.map (fun s => s.id)
      (updateIndividualStations m.stations (getCurrentBounds v)
        (getMaxVisibleStations cfg)))).foldl
      (fun acc id =>
        if id ∈ ([] : List String) then acc
        else
          match m.stations.find? (fun s => s.id = id) with
          | some s => acc ++ [s]
          | none => acc) [] with hqueue
    obtain ⟨f1, f2, f3, f4, f5, f6⟩ := drainQueue_frame queue
      (⟨m.stations, [], [], [], []⟩ : ManagerState)
    have hmem := drainQueue_overlay_mem queue (⟨m.stations, [], [], [], []⟩ : ManagerState)
    refine ⟨?_, ?_, ?_, ?_, ?_⟩
    · simp [f1]
    · rw [removedOverlayIds_append, hcl.2.1, f4]
      simp
    · rw [removedClusterIds_append, hcl.2.2.2.1, f5]
      simp
    · intro id
      rw [hmem, addedOverlayIds_append, hcl.2.2.1]
      simp
    · intro cid
      rw [f2, addedClusterIds_append, hcl.2.2.2.2, f6]
      simp

/-- C5.  With no state change between the calls, a second
`updateVisibleStations` run reproduces the exact same manager state (in
particular the same rendered-id set), and its clear-and-rebuild is a net
no-op: the overlay ids and cluster ids it adds are exactly (setwise) the
ones its own clear removed. -/
theorem c5_idempotent_settle (cfg : ManagerCfg) (q : ClusterQuery) (v : MapView)
    (m : ManagerState) :
    (updateVisibleStations cfg q v ((updateVisibleStations cfg q v m).1)).1 =
      (updateVisibleStations cfg q v m).1 ∧
    (∀ id,
      id ∈ addedOverlayIds
          (updateVisibleStations cfg q v ((updateVisibleStations cfg q v m).1)).2 ↔
      id ∈ removedOverlayIds
          (updateVisibleStations cfg q v ((updateVisibleStations cfg q v m).1)).2) ∧
    (∀ cid,
      cid ∈ addedClusterIds
          (updateVisibleStations cfg q v ((updateVisibleStations cfg q v m).1)).2 ↔
      cid ∈ removedClusterIds
          (updateVisibleStations cfg q v ((updateVisibleStations cfg q v m).1)).2) := by
  obtain ⟨hst1, _, _, _, _⟩ := update_trace_spec cfg q v m
  obtain ⟨hst2, hro2, hrc2, hom2, hcm2⟩ := update_trace_spec cfg q v
    ((updateVisibleStations cfg q v m).1)
  have hfix : (updateVisibleStations cfg q v ((updateVisibleStations cfg q v m).1)).1 =
      (updateVisibleStations cfg q v m).1 := by
    have h1 := updateVisibleStations_decompose cfg q v m
    have h2 := updateVisibleStations_decompose cfg q v ((updateVisibleStations cfg q v m).1)
    calc (updateVisibleStations cfg q v ((updateVisibleStations cfg q v m).1)).1
        = (updateVisibleStations cfg q v
            ⟨(updateVisibleStations cfg q v m).1.stations, [], [], [], []⟩).1 := by
          rw [h2]
      _ = (updateVisibleStations cfg q v ⟨m.stations, [], [], [], []⟩).1 := by rw [hst1]
      _ = (updateVisibleStations cfg q v m).1 := by rw [h1]
  refine ⟨hfix, ?_, ?_⟩
  · intro id
    have h := hom2 id
    rw [hfix] at h
    rw [hro2]
    exact h.symm
  · intro cid
    have h := hcm2 cid
    rw [hfix] at h
    rw [hrc2]
    exact h.symm

set_option maxRecDepth 100000 in
/-- Witness for C2's amended theorem at the concrete 150-station pan
scenario. -/
theorem c2_amended_pan_full_rebuild_witness :
    (removedOverlayIds (updateVisibleStations panCfg emptyQuery panView2
        (updateVisibleStations panCfg emptyQuery panView1
          (ManagerState.mk0 panStations)).1).2).length = 50 ∧
    (addedOverlayIds (updateVisibleStations panCfg emptyQuery panView2
        (updateVisibleStations panCfg emptyQuery panView1
          (ManagerState.mk0 panStations)).1).2).length = 50 :=
  c2_amended_pan_full_rebuild panCfg emptyQuery panView1 panView2 panStations
    (by with_unfolding_all decide) (by with_unfolding_all decide)
    (by with_unfolding_all decide) (by with_unfolding_all decide)
    (by with_unfolding_all decide) (by with_unfolding_all decide)
    (by with_unfolding_all decide) (by with_unfolding_all decide)
end SkyView
